import Mathlib

set_option maxRecDepth 8000

/-!
Verification of the wff-tools 3D Tiles toolset against its design
specification.  The Python sources (archive3tz.py, index3tz.py, glbjson.py,
gltf.py) are shallowly embedded: byte strings become `List Nat`, machine
integers become `Nat`/`Int` with explicit bounds, fallible code returns
`Except String`, and external library calls (zlib, zstandard, hashlib.md5)
are passed in as function parameters.  Python byte-string slicing, which
clamps and supports negative indices, is modelled by `pySlice`.  The file
is organised as definitions first, then theorems.
-/

namespace WffTools

deriving instance DecidableEq for Except

/-! ## Byte-level utilities -/

/-- Value of a byte list read as a little-endian unsigned integer
(Python `int.from_bytes(b, byteorder='little')`; the empty list gives 0). -/
def bytesToNatLE : List Nat → Nat
  | [] => 0
  | b :: rest => b + 256 * bytesToNatLE rest

/-- Little-endian encoding of `n` on exactly `k` bytes
(Python `struct.pack` / `int.to_bytes` with byteorder little). -/
def natToBytesLE : Nat → Nat → List Nat
  | 0, _ => []
  | k + 1, n => (n % 256) :: natToBytesLE k (n / 256)

/-- Two's-complement reading of an unsigned value `n` on `bits` bits. -/
def toSigned (bits : Nat) (n : Nat) : Int :=
  if n < 2 ^ (bits - 1) then (n : Int) else (n : Int) - 2 ^ bits

/-- Python slice `l[i:j]` on byte strings: negative indices count from the
end, and out-of-range bounds clamp instead of failing. -/
def pySlice (l : List Nat) (i j : Int) : List Nat :=
  let n : Int := (l.length : Int)
  let lo := (if i < 0 then max 0 (n + i) else min i n).toNat
  let hi := (if j < 0 then max 0 (n + j) else min j n).toNat
  (l.take hi).drop lo

/-- Split a byte list into consecutive `s`-byte little-endian words; a
trailing fragment shorter than `s` is ignored (this mirrors how the sources
always unpack an exact multiple of the word size). -/
def leWords (s : Nat) (data : List Nat) : List Nat :=
  (List.range (data.length / s)).map (fun i => bytesToNatLE ((data.drop (i * s)).take s))

/-- Index of the last occurrence of `needle` in `haystack`
(Python `bytes.rfind`), or -1 when absent. -/
def rfind (haystack needle : List Nat) : Int :=
  match (((List.range (haystack.length + 1)).filter
      (fun i => (haystack.drop i).take needle.length = needle))).getLast? with
  | some i => (i : Int)
  | none => -1

/-! ## Codec (archive3tz.py lines 24-32 and 82-104)

`decompressFileContents` dispatches on the 2-byte compression-method field.
The source compares little-endian 2-byte strings; we compare their integer
values, which is equivalent because both sides are canonical 2-byte
encodings.  The zlib and zstandard backends are parameters; `zstdBackend`
is `none` when the zstandard module is not installed. -/

def ZIP_COMPRESSION_METHOD_DEFLATE : Nat := 0x08
def ZIP_COMPRESSION_METHOD_STORE : Nat := 0x00
def ZIP_COMPRESSION_METHOD_ZSTD : Nat := 0x5d
def ZIP_COMPRESSION_METHOD_ZSTD_OLD : Nat := 0x17

/-- Model of `decompressFileContents(compMethod, uncompressedFilesize, bytes)`
(archive3tz.py lines 82-104).  Store payloads are returned unchanged, with
no length check; Deflate and Zstd outputs are checked against the expected
uncompressed size. -/
def decompressFileContents
    (inflateRaw : List Nat → Except String (List Nat))
    (zstdBackend : Option (List Nat → Nat → Except String (List Nat)))
    (compMethod : Nat) (uncompressedFilesize : Nat) (inBytes : List Nat) :
    Except String (List Nat) :=
  if compMethod = ZIP_COMPRESSION_METHOD_DEFLATE then
    match inflateRaw inBytes with
    | .error e => .error e
    | .ok uncompressedBytes =>
      if uncompressedBytes.length ≠ uncompressedFilesize then
        .error "Decompression failed, unexpected length"
      else .ok uncompressedBytes
  else if compMethod = ZIP_COMPRESSION_METHOD_ZSTD ∨
      compMethod = ZIP_COMPRESSION_METHOD_ZSTD_OLD then
    match zstdBackend with
    | none => .error "Unsupported compression method, requires zstandard module"
    | some zstdDecompress =>
      match zstdDecompress inBytes uncompressedFilesize with
      | .error e => .error e
      | .ok uncompressedBytes =>
        if uncompressedBytes.length ≠ uncompressedFilesize then
          .error "Decompression failed, unexpected length"
        else .ok uncompressedBytes
  else if compMethod ≠ ZIP_COMPRESSION_METHOD_STORE then
    .error "Unsupported compression method"
  else
    .ok inBytes

/-! ## ZIP parser (archive3tz.py lines 35-186)

Byte-string fields of the parsed records (signatures, CRC, filenames) are
kept as raw byte lists; the source's UTF-8 decoding of filenames is not
modelled (the bytes determine the decoded string). -/

/-- Parsed central directory entry, with the same fields as the dict built
by `parseCentralDirectoryEntry` (archive3tz.py lines 35-60). -/
structure CentralDirectoryEntry where
  signature : List Nat
  version : List Nat
  versionNeeded : List Nat
  generalBits : List Nat
  compressionMethod : List Nat
  lastModTime : List Nat
  lastModDate : List Nat
  crc32 : List Nat
  compressedSize : Nat
  uncompressedSize : Nat
  filenameLength : Nat
  extraFieldLength : Nat
  fileCommentLength : Nat
  distNumber : Nat
  internalFileAttributes : List Nat
  externalFileAttributes : List Nat
  relativeOffsetOfLocalHeader : Nat
  filename : List Nat
  extraField : List Nat
  fileComment : List Nat
deriving DecidableEq, Repr

/-- Model of `parseCentralDirectoryEntry(bytes)` (archive3tz.py lines 35-60). -/
def parseCentralDirectoryEntry (b : List Nat) : CentralDirectoryEntry :=
  let filenameLength := bytesToNatLE (pySlice b 28 30)
  let extraFieldLength := bytesToNatLE (pySlice b 30 32)
  let fileCommentLength := bytesToNatLE (pySlice b 32 34)
  { signature := pySlice b 0 4
    version := pySlice b 4 6
    versionNeeded := pySlice b 6 8
    generalBits := pySlice b 8 10
    compressionMethod := pySlice b 10 12
    lastModTime := pySlice b 12 14
    lastModDate := pySlice b 14 16
    crc32 := pySlice b 16 20
    compressedSize := bytesToNatLE (pySlice b 20 24)
    uncompressedSize := bytesToNatLE (pySlice b 24 28)
    filenameLength := filenameLength
    extraFieldLength := extraFieldLength
    fileCommentLength := fileCommentLength
    distNumber := bytesToNatLE (pySlice b 34 36)
    internalFileAttributes := pySlice b 36 38
    externalFileAttributes := pySlice b 38 42
    relativeOffsetOfLocalHeader := bytesToNatLE (pySlice b 42 46)
    filename := pySlice b 46 (46 + (filenameLength : Int))
    extraField := pySlice b (46 + (filenameLength : Int))
      (46 + (filenameLength : Int) + (extraFieldLength : Int))
    fileComment := pySlice b (46 + (filenameLength : Int) + (extraFieldLength : Int))
      (46 + (filenameLength : Int) + (extraFieldLength : Int) + (fileCommentLength : Int)) }

/-- Parsed local file header, with the same fields as the dict built by
`getLocalFileHeaderAtOffset` (archive3tz.py lines 129-149). -/
structure LocalFileHeader where
  signature : List Nat
  versionNeeded : List Nat
  generalBits : List Nat
  compressionMethod : List Nat
  lastModTime : List Nat
  lastModDate : List Nat
  crc32 : List Nat
  compressedSize : Nat
  uncompressedSize : Nat
  filenameLength : Nat
  extraFieldLength : Nat
  filename : List Nat
  extraField : List Nat
deriving DecidableEq, Repr

def LOCALFILEHEADERSIZE : Nat := 30

/-- Model of `getLocalFileHeaderAtOffset(file, offset)` (archive3tz.py lines
129-149): seek to `offset`, read `30 + 100` bytes (a short read near the end
of the file is clamped, as `file.read` does), and parse the header fields. -/
def getLocalFileHeaderAtOffset (file : List Nat) (offset : Nat) : LocalFileHeader :=
  let b := pySlice file (offset : Int) ((offset : Int) + (LOCALFILEHEADERSIZE : Int) + 100)
  let filenameLength := bytesToNatLE (pySlice b 26 28)
  let extraFieldLength := bytesToNatLE (pySlice b 28 30)
  { signature := pySlice b 0 4
    versionNeeded := pySlice b 4 6
    generalBits := pySlice b 6 8
    compressionMethod := pySlice b 8 10
    lastModTime := pySlice b 10 12
    lastModDate := pySlice b 12 14
    crc32 := pySlice b 14 18
    compressedSize := bytesToNatLE (pySlice b 18 22)
    uncompressedSize := bytesToNatLE (pySlice b 22 26)
    filenameLength := filenameLength
    extraFieldLength := extraFieldLength
    filename := pySlice b (LOCALFILEHEADERSIZE : Int)
      ((LOCALFILEHEADERSIZE : Int) + (filenameLength : Int))
    extraField := pySlice b ((LOCALFILEHEADERSIZE : Int) + (filenameLength : Int))
      ((LOCALFILEHEADERSIZE : Int) + (filenameLength : Int) + (extraFieldLength : Int)) }

/-- One step of the `while currentPos < cde.extraFieldLength` loop of
`getLocalFileHeaderFromCentralDirectoryEntry` (archive3tz.py lines 157-166).
Each `struct.unpack` demands a slice of exactly the requested size, so a
short slice is a `struct.error`.  The loop advances `currentPos` by at least
4 per iteration, so the fuel passed by the entry point below never runs
out; the fuel constructor only makes the recursion structural. -/
def zip64ExtraFieldWalk (file : List Nat) (extraField0 : List Nat)
    (extraFieldLength0 : Nat) : Nat → Nat → Except String (Option LocalFileHeader)
  | 0, _ => .error "fuel exhausted"
  | fuel + 1, currentPos =>
    if currentPos < extraFieldLength0 then
      let hdr := pySlice extraField0 (currentPos : Int) ((currentPos : Int) + 4)
      if hdr.length = 4 then
        let extra_tag := bytesToNatLE (hdr.take 2)
        let extra_size := bytesToNatLE (hdr.drop 2)
        if extra_tag = 1 ∧ extra_size = 8 then
          let payload := pySlice extraField0 ((currentPos : Int) + 4) ((currentPos : Int) + 12)
          if payload.length = 8 then
            .ok (some (getLocalFileHeaderAtOffset file (bytesToNatLE payload)))
          else .error "struct.error"
        else
          zip64ExtraFieldWalk file extraField0 extraFieldLength0 fuel
            (currentPos + 4 + extra_size)
      else .error "struct.error"
    else .ok none

/-- Model of `getLocalFileHeaderFromCentralDirectoryEntry(file, cde)`
(archive3tz.py lines 152-168).  When the relative offset is the ZIP64
sentinel `0xFFFFFFFF`, the extra field is walked for a tuple with tag
`0x0001` and size 8; when the walk finds none the source returns `None`
(modelled as `.ok none`), without raising. -/
def getLocalFileHeaderFromCentralDirectoryEntry (file : List Nat)
    (cde : CentralDirectoryEntry) : Except String (Option LocalFileHeader) :=
  if cde.relativeOffsetOfLocalHeader = 0xFFFFFFFF then
    zip64ExtraFieldWalk file cde.extraField cde.extraFieldLength
      (cde.extraFieldLength + 1) 0
  else
    .ok (some (getLocalFileHeaderAtOffset file cde.relativeOffsetOfLocalHeader))

def ENDOFCENTRALDIRECTORY : List Nat := [0x50, 0x4b, 0x05, 0x06]
def STARTOFCENTRALDIRECTORY : List Nat := [0x50, 0x4b, 0x01, 0x02]

/-- Model of `getLastEntryInCentralDirectory(file, containerpath)`
(archive3tz.py lines 171-186): seek to `filesize - 320` and read to the end.
For a file shorter than 320 bytes the Python `file.seek` receives a negative
offset and raises `OSError` (errno 22), which the source does not catch
(only `FileNotFoundError` is).  Within the window, the source takes the
last occurrence of each signature anywhere in the window and requires the
central-directory one to precede the end-of-central-directory one,
returning `None` (here `.ok none`) otherwise. -/
def getLastEntryInCentralDirectory (file : List Nat) :
    Except String (Option CentralDirectoryEntry) :=
  let filesize := file.length
  if filesize < 320 then .error "OSError invalid argument, negative seek"
  else
    let buffer := file.drop (filesize - 320)
    let start := rfind buffer STARTOFCENTRALDIRECTORY
    let stop := rfind buffer ENDOFCENTRALDIRECTORY
    if start < stop ∧ start ≠ stop then
      .ok (some (parseCentralDirectoryEntry (pySlice buffer start stop)))
    else
      .ok none

/-! ## 3TZ index construction (index3tz.py lines 24-126)

`zipfile.ZipFile.infolist()` entries are modelled by `ZipItem`, with the
attribute names the source reads.  `ZipInfo.is_dir()` tests whether the
filename ends with a slash; `hashlib.md5` is a parameter `md5h` returning
the two little-endian unsigned 64-bit halves of the digest, exactly what
`struct.unpack("QQ", digest)` produces. -/

structure ZipItem where
  filename : String
  flag_bits : Nat
  compress_type : Nat
  compress_size : Nat
  file_size : Nat
  header_offset : Nat
deriving DecidableEq, Repr

/-- Python `ZipInfo.is_dir()`: the filename ends with a slash. -/
def ZipItem.is_dir (item : ZipItem) : Bool :=
  item.filename.data.getLast? = some '/'

/-- Model of `checkIfSupportedZipItem(item)` (index3tz.py lines 24-48);
`AssertionError` becomes an `Except.error` with the source's message. -/
def checkIfSupportedZipItem (item : ZipItem) : Except String Unit :=
  let disallowedFlagBits : Nat := (1 <<< 0) ||| (1 <<< 3) ||| (1 <<< 5) ||| (1 <<< 13)
  if item.compress_type ≠ 8 ∧ item.compress_type ≠ 93 ∧ item.compress_type ≠ 0 then
    .error "Bad compression type"
  else if item.flag_bits &&& disallowedFlagBits ≠ 0 then
    if item.flag_bits &&& disallowedFlagBits = 1 <<< 0 then
      .error "File is encrypted"
    else if item.flag_bits &&& disallowedFlagBits = 1 <<< 3 then
      .error "Local File Headers do not have file size set"
    else if item.flag_bits &&& disallowedFlagBits = 1 <<< 5 then
      .error "File has compressed patched data"
    else if item.flag_bits &&& disallowedFlagBits = 1 <<< 13 then
      .error "File has encrypted central file directory"
    else
      .error "Disallowed flag bits"
  else if item.compress_size = 0 ∧ item.file_size ≠ 0 then
    .error "Local file headers must have compressed sizes set"
  else
    .ok ()

/-- The filter applied inside `buildIndex` after validation (index3tz.py
line 111): directories and a pre-existing index file are skipped. -/
def acceptedItem (item : ZipItem) : Bool :=
  !item.is_dir && item.filename ≠ "@3dtilesIndex1@"

/-- The `(lo, hi, offset)` triple appended per accepted item
(index3tz.py lines 115-121). -/
def itemEntry (md5h : String → Nat × Nat) (item : ZipItem) : Nat × Nat × Nat :=
  ((md5h item.filename).1, (md5h item.filename).2, item.header_offset)

/-- The `for item in infolist` loop of `buildIndex` (index3tz.py lines
109-121): every entry is validated first, then directories and an existing
index are filtered out. -/
def buildIndexEntries (md5h : String → Nat × Nat) :
    List ZipItem → Except String (List (Nat × Nat × Nat))
  | [] => .ok []
  | item :: rest =>
    match checkIfSupportedZipItem item with
    | .error e => .error e
    | .ok () =>
      match buildIndexEntries md5h rest with
      | .error e => .error e
      | .ok tail =>
        if acceptedItem item then .ok (itemEntry md5h item :: tail) else .ok tail

/-- The comparison behind `sorted(unsortedIndex, key=operator.itemgetter(0, 1))`
(index3tz.py line 122): lexicographic on the `(lo, hi)` halves. -/
def keyLe (x y : Nat × Nat × Nat) : Prop :=
  x.1 < y.1 ∨ (x.1 = y.1 ∧ x.2.1 ≤ y.2.1)

/-- Strict version of `keyLe`, used to state that an index with pairwise
distinct digests is strictly sorted. -/
def keyLt (x y : Nat × Nat × Nat) : Prop :=
  x.1 < y.1 ∨ (x.1 = y.1 ∧ x.2.1 < y.2.1)

instance : DecidableRel keyLe := fun x y =>
  inferInstanceAs (Decidable (x.1 < y.1 ∨ (x.1 = y.1 ∧ x.2.1 ≤ y.2.1)))

instance : IsTotal (Nat × Nat × Nat) keyLe :=
  ⟨fun x y => by unfold keyLe; omega⟩

instance : IsTrans (Nat × Nat × Nat) keyLe :=
  ⟨fun x y z hxy hyz => by unfold keyLe at *; omega⟩

/-- Packing of one sorted triple by `struct.pack('<QQQ', lo, hi, offset)`
(index3tz.py line 125); `struct.error` when a value does not fit in an
unsigned 64-bit field. -/
def packIndexEntry (e : Nat × Nat × Nat) : Except String (List Nat) :=
  if e.1 < 2 ^ 64 ∧ e.2.1 < 2 ^ 64 ∧ e.2.2 < 2 ^ 64 then
    .ok (natToBytesLE 8 e.1 ++ natToBytesLE 8 e.2.1 ++ natToBytesLE 8 e.2.2)
  else .error "struct.error, value out of range for Q"

/-- Model of `buildIndex(zipPath)` (index3tz.py lines 104-126): validate and
collect the `(lo, hi, offset)` triples, sort by `(lo, hi)`, and pack each
as three little-endian unsigned 64-bit words. -/
def buildIndex (md5h : String → Nat × Nat) (items : List ZipItem) :
    Except String (List Nat) :=
  match buildIndexEntries md5h items with
  | .error e => .error e
  | .ok unsortedIndex =>
    match (List.insertionSort keyLe unsortedIndex).mapM packIndexEntry with
    | .error e => .error e
    | .ok packed => .ok packed.flatten

/-! ## 3TZ index reading and lookup (archive3tz.py lines 189-236)

The `Index` class wraps the blob in `memoryview(bytes).cast("Q")`: a list
of little-endian unsigned 64-bit words.  The cast raises when the blob
length is not a multiple of 8.  `index[i]` reads words `3i, 3i+1, 3i+2`
and raises `IndexError` when any is out of range; `len(index)` is the word
count divided by 3. -/

/-- Model of `readIndex(indexBytes)` / `Index.__init__` (archive3tz.py
lines 192-206): the blob viewed as unsigned 64-bit little-endian words. -/
def readIndex (indexBytes : List Nat) : Except String (List Nat) :=
  if indexBytes.length % 8 = 0 then .ok (leWords 8 indexBytes)
  else .error "TypeError, memoryview cast length mismatch"

/-- Model of `len(index)` (archive3tz.py lines 199-200). -/
def indexLen (words : List Nat) : Nat := words.length / 3

/-- Model of `Index.__getitem__(i)` (archive3tz.py lines 196-197): `none`
models the `IndexError` raised on an out-of-range word access. -/
def indexGet (words : List Nat) (i : Nat) : Option (Nat × Nat × Nat) :=
  match words.get? (3 * i), words.get? (3 * i + 1), words.get? (3 * i + 2) with
  | some a, some b, some c => some (a, b, c)
  | _, _, _ => none

/-- Model of `md5LessThan(aLo, aHi, bLo, bHi)` (archive3tz.py lines 209-212). -/
def md5LessThan (aLo aHi bLo bHi : Nat) : Bool :=
  if aLo = bLo then decide (aHi < bHi) else decide (aLo < bLo)

/-- The `while low <= high` binary-search loop of
`findLocalFileHeaderOffsetInIndex` (archive3tz.py lines 223-236).
`low`/`high` are Python ints (they go negative through `high = mid - 1`),
and `mid = floor(low + (high - low) / 2)`; inside the loop `high - low ≥ 0`
so floor division agrees with integer division.  Each iteration shrinks
`high - low`, so the fuel passed by the entry point never runs out; a
negative `mid` cannot occur either since `low` starts at 0 and only grows. -/
def findLoop (a b : Nat) (words : List Nat) :
    Nat → Int → Int → Except String (Option Nat)
  | 0, _, _ => .error "fuel exhausted"
  | fuel + 1, low, high =>
    if low ≤ high then
      let mid := low + (high - low) / 2
      if 0 ≤ mid then
        match indexGet words mid.toNat with
        | none => .error "IndexError"
        | some entry =>
          if entry.1 = a ∧ entry.2.1 = b then .ok (some entry.2.2)
          else if md5LessThan entry.1 entry.2.1 a b then
            findLoop a b words fuel (mid + 1) high
          else
            findLoop a b words fuel low (mid - 1)
      else .error "IndexError"
    else .ok none

/-- Model of `findLocalFileHeaderOffsetInIndex(index, filepath)`
(archive3tz.py lines 215-236).  The binary search starts with
`low = 0, high = len(index)` — `len(index)`, not `len(index) - 1`. -/
def findLocalFileHeaderOffsetInIndex (md5h : String → Nat × Nat)
    (words : List Nat) (filepath : String) : Except String (Option Nat) :=
  let digest := md5h filepath
  findLoop digest.1 digest.2 words (indexLen words + 2) 0 ((indexLen words : Nat) : Int)

/-! ## GLB chunk reader (glbjson.py lines 59-78)

`getChunksFromBuffer` parses the 12-byte GLB header plus the first chunk
header with `struct.unpack('<iiiii', buffer[:20])` — signed 32-bit fields.
The JSON chunk is returned as its raw bytes (the source decodes UTF-8; the
bytes determine the decoded string). -/

def GLB_MAGIC : Int := 0x46546C67
def GLB_CHUNK_TYPE_JSON : Int := 0x4E4F534A
def GLB_CHUNK_TYPE_BIN : Int := 0x004E4942

/-- Model of `getChunksFromBuffer(buffer)` (glbjson.py lines 59-78). -/
def getChunksFromBuffer (buffer : List Nat) :
    Except String (List Nat × Option (List Nat)) :=
  let hdrBytes := pySlice buffer 0 20
  if hdrBytes.length ≠ 20 then .error "struct.error"
  else
    let magic := toSigned 32 (bytesToNatLE (pySlice hdrBytes 0 4))
    let version := toSigned 32 (bytesToNatLE (pySlice hdrBytes 4 8))
    let jsonLen := toSigned 32 (bytesToNatLE (pySlice hdrBytes 12 16))
    let chunk0Type := toSigned 32 (bytesToNatLE (pySlice hdrBytes 16 20))
    if magic ≠ GLB_MAGIC then .error "Not a glb file"
    else if version ≠ 2 then .error "Unknown glb container version"
    else if chunk0Type ≠ GLB_CHUNK_TYPE_JSON then
      .error "First glb chunk not json, glb is invalid"
    else if jsonLen = 0 then .error "Empty json chunk"
    else
      let jsondata := pySlice buffer 20 (20 + jsonLen)
      let data := pySlice buffer (20 + jsonLen) (buffer.length : Int)
      if 8 < data.length then
        let chunkLength := toSigned 32 (bytesToNatLE (pySlice data 0 4))
        let chunkType := toSigned 32 (bytesToNatLE (pySlice data 4 8))
        if chunkType ≠ GLB_CHUNK_TYPE_BIN then .error "Glb binary chunk header error"
        else .ok (jsondata, some (pySlice data 8 (8 + chunkLength)))
      else .ok (jsondata, none)

/-! ## Auxiliary definitions used to state theorems -/

/-- Byte encoding of one ZIP extra-field tuple `(tag, size, payload)`:
2-byte tag, 2-byte size, then the payload. -/
def encodeExtraTuple (t : Nat × Nat × List Nat) : List Nat :=
  natToBytesLE 2 t.1 ++ natToBytesLE 2 t.2.1 ++ t.2.2

/-- Byte encoding of a whole extra field from its tuples. -/
def encodeExtraTuples (ts : List (Nat × Nat × List Nat)) : List Nat :=
  (ts.map encodeExtraTuple).flatten

/-- Well-formedness of extra-field tuples: tag and size fit in 16 bits and
the payload has exactly the declared size. -/
def WFExtraTuples (ts : List (Nat × Nat × List Nat)) : Prop :=
  ∀ t ∈ ts, t.1 < 2 ^ 16 ∧ t.2.1 < 2 ^ 16 ∧ t.2.2.length = t.2.1

/-- The byte string `struct.pack('<QQQ', lo, hi, offset)` produces for an
in-range index entry. -/
def packedEntryBytes (e : Nat × Nat × Nat) : List Nat :=
  natToBytesLE 8 e.1 ++ natToBytesLE 8 e.2.1 ++ natToBytesLE 8 e.2.2

/-- The word sequence a packed entry list casts back to: three unsigned
64-bit words per entry. -/
def flatTriples (es : List (Nat × Nat × Nat)) : List Nat :=
  es.flatMap (fun e => [e.1, e.2.1, e.2.2])

/-- The `(lo, hi, offset)` triples `buildIndex` collects from a ZIP, in
central-directory order. -/
def indexEntriesOf (md5h : String → Nat × Nat) (items : List ZipItem) :
    List (Nat × Nat × Nat) :=
  (items.filter acceptedItem).map (itemEntry md5h)

/-! ## glTF metadata decoder (gltf.py)

Decoded Python values are modelled by `PValue`: Python ints become `.int`,
floats become exact rationals `.rat` (IEEE bit patterns decode exactly to
dyadic rationals; the non-finite patterns are carried as `.nonfinite`),
bools become `.bool`, schema strings become `.str`, strings decoded from
buffer bytes are kept as their raw bytes in `.utf8`, and tuples/lists of
values become `.arr`. -/

inductive PValue where
  | int (i : Int)
  | rat (q : ℚ)
  | bool (b : Bool)
  | str (s : String)
  | utf8 (bs : List Nat)
  | arr (vs : List PValue)
  | nonfinite (width : Nat) (bits : Nat)

/-- Power of two as a rational, for exact IEEE-754 decoding. -/
def qPow2 (k : Int) : ℚ :=
  if 0 ≤ k then ((2 ^ k.toNat : Nat) : ℚ) else 1 / ((2 ^ (-k).toNat : Nat) : ℚ)

/-- Exact value of an IEEE-754 binary32 bit pattern (what `struct.unpack`
with format `f` yields); infinities and NaNs are kept as `.nonfinite`. -/
def decodeFloat32 (w : Nat) : PValue :=
  let sign : Nat := w / 2 ^ 31 % 2
  let expo : Nat := w / 2 ^ 23 % 2 ^ 8
  let mant : Nat := w % 2 ^ 23
  if expo = 255 then PValue.nonfinite 32 w
  else
    let mag : ℚ :=
      if expo = 0 then (mant : ℚ) * qPow2 (-149)
      else ((2 ^ 23 + mant : Nat) : ℚ) * qPow2 ((expo : Int) - 150)
    PValue.rat (if sign = 1 then -mag else mag)

/-- Exact value of an IEEE-754 binary64 bit pattern (format `d`). -/
def decodeFloat64 (w : Nat) : PValue :=
  let sign : Nat := w / 2 ^ 63 % 2
  let expo : Nat := w / 2 ^ 52 % 2 ^ 11
  let mant : Nat := w % 2 ^ 52
  if expo = 2047 then PValue.nonfinite 64 w
  else
    let mag : ℚ :=
      if expo = 0 then (mant : ℚ) * qPow2 (-1074)
      else ((2 ^ 52 + mant : Nat) : ℚ) * qPow2 ((expo : Int) - 1075)
    PValue.rat (if sign = 1 then -mag else mag)

/-- Model of `componentTypeSizeInBytes(propType)` (gltf.py lines 42-54);
unhandled types default to 1 byte with a warning. -/
def componentTypeSizeInBytes (propType : String) : Nat :=
  if propType = "UINT8" ∨ propType = "INT8" then 1
  else if propType = "UINT16" ∨ propType = "INT16" then 2
  else if propType = "INT32" ∨ propType = "UINT32" ∨ propType = "FLOAT32" then 4
  else if propType = "FLOAT64" ∨ propType = "INT64" ∨ propType = "UINT64" then 8
  else 1

/-- Model of `getComponentCount(propType)` (gltf.py lines 85-103);
unhandled types warn and keep the default 1. -/
def getComponentCount (propType : String) : Nat :=
  if propType = "SCALAR" then 1
  else if propType = "VEC2" then 2
  else if propType = "VEC3" then 3
  else if propType = "VEC4" then 4
  else if propType = "MAT2" then 4
  else if propType = "MAT3" then 9
  else if propType = "MAT4" then 16
  else 1

/-- Model of `denormalize(propType, value)` (gltf.py lines 57-75).  Python
float division is modelled by exact rational division. -/
def denormalizeQ (propType : String) (value : ℚ) : Except String ℚ :=
  if propType = "UINT8" then .ok (value / 255)
  else if propType = "INT8" then .ok (max (value / 127) (-1))
  else if propType = "UINT16" then .ok (value / 65535)
  else if propType = "INT16" then .ok (max (value / 32767) (-1))
  else if propType = "UINT32" then .ok (value / 4294967295)
  else if propType = "INT32" then .ok (max (value / 2147483647) (-1))
  else if propType = "UINT64" then .ok (value / 18446744073709551615)
  else if propType = "INT64" then .ok (max (value / 9223372036854775807) (-1))
  else .error "Unhandled type"

/-- Model of `applyOffsetScale(propType, value, offset, scale,
denormalizeValue)` (gltf.py lines 78-82).  Python numbers (ints, floats,
bools) are collapsed into exact rationals; IEEE non-finite values are
carried through unchanged (their arithmetic is not modelled); non-numeric
operands raise `TypeError` in Python. -/
def applyOffsetScale (propType : String) (value : PValue) (offset scale : ℚ)
    (denormalizeValue : Bool) : Except String PValue :=
  let core : ℚ → Except String PValue := fun q =>
    if denormalizeValue then
      match denormalizeQ propType q with
      | .error e => .error e
      | .ok d => .ok (.rat (offset + scale * d))
    else .ok (.rat (offset + scale * q))
  match value with
  | .nonfinite w b => .ok (.nonfinite w b)
  | .int i => core (i : ℚ)
  | .rat q => core q
  | .bool b => core (if b then 1 else 0)
  | _ => .error "TypeError, unsupported operand"

/-- Model of `GltfDocument.readScalarValues(propType, count, data)`
(gltf.py lines 404-437): `struct.unpack` demands that `data` hold exactly
`count` little-endian values of the requested type. -/
def readScalarValues (propType : String) (count : Nat) (data : List Nat) :
    Except String (List PValue) :=
  if propType = "UINT8" then
    if data.length ≠ count * 1 then .error "struct.error"
    else .ok ((leWords 1 data).map (fun w => PValue.int (w : Int)))
  else if propType = "INT8" then
    if data.length ≠ count * 1 then .error "struct.error"
    else .ok ((leWords 1 data).map (fun w => PValue.int (toSigned 8 w)))
  else if propType = "UINT16" then
    if data.length ≠ count * 2 then .error "struct.error"
    else .ok ((leWords 2 data).map (fun w => PValue.int (w : Int)))
  else if propType = "INT16" then
    if data.length ≠ count * 2 then .error "struct.error"
    else .ok ((leWords 2 data).map (fun w => PValue.int (toSigned 16 w)))
  else if propType = "UINT32" then
    if data.length ≠ count * 4 then .error "struct.error"
    else .ok ((leWords 4 data).map (fun w => PValue.int (w : Int)))
  else if propType = "INT32" then
    if data.length ≠ count * 4 then .error "struct.error"
    else .ok ((leWords 4 data).map (fun w => PValue.int (toSigned 32 w)))
  else if propType = "UINT64" then
    if data.length ≠ count * 8 then .error "struct.error"
    else .ok ((leWords 8 data).map (fun w => PValue.int (w : Int)))
  else if propType = "INT64" then
    if data.length ≠ count * 8 then .error "struct.error"
    else .ok ((leWords 8 data).map (fun w => PValue.int (toSigned 64 w)))
  else if propType = "FLOAT32" then
    if data.length ≠ count * 4 then .error "struct.error"
    else .ok ((leWords 4 data).map decodeFloat32)
  else if propType = "FLOAT64" then
    if data.length ≠ count * 8 then .error "struct.error"
    else .ok ((leWords 8 data).map decodeFloat64)
  else .error "Unhandled scalar type"

/-- One `struct.unpack` group inside `readFixedSizeArrayValues` (gltf.py
lines 452-484); an unhandled component type logs an error and appends
nothing (`none` here).  The call sites always pass `rawbytes` of exactly
`componentCount` times the component size. -/
def unpackGroup (componentType : String) (rawbytes : List Nat) : Option PValue :=
  if componentType = "INT8" then
    some (.arr ((leWords 1 rawbytes).map (fun w => PValue.int (toSigned 8 w))))
  else if componentType = "UINT8" then
    some (.arr ((leWords 1 rawbytes).map (fun w => PValue.int (w : Int))))
  else if componentType = "INT16" then
    some (.arr ((leWords 2 rawbytes).map (fun w => PValue.int (toSigned 16 w))))
  else if componentType = "UINT16" then
    some (.arr ((leWords 2 rawbytes).map (fun w => PValue.int (w : Int))))
  else if componentType = "INT32" then
    some (.arr ((leWords 4 rawbytes).map (fun w => PValue.int (toSigned 32 w))))
  else if componentType = "UINT32" then
    some (.arr ((leWords 4 rawbytes).map (fun w => PValue.int (w : Int))))
  else if componentType = "INT64" then
    some (.arr ((leWords 8 rawbytes).map (fun w => PValue.int (toSigned 64 w))))
  else if componentType = "UINT64" then
    some (.arr ((leWords 8 rawbytes).map (fun w => PValue.int (w : Int))))
  else if componentType = "FLOAT32" then
    some (.arr ((leWords 4 rawbytes).map decodeFloat32))
  else if componentType = "FLOAT64" then
    some (.arr ((leWords 8 rawbytes).map decodeFloat64))
  else none

/-- Model of `GltfDocument.readFixedSizeArrayValues(componentType,
arrayCount, componentCount, data)` (gltf.py lines 439-485).  The source
guards with `len(data) / elementSize < arrayCount` using float division
(exact in the modelled range) and raises `ZeroDivisionError` when the
element size is zero. -/
def readFixedSizeArrayValues (componentType : String)
    (arrayCount componentCount : Nat) (data : List Nat) :
    Except String (List PValue) :=
  let componentByteSize := componentTypeSizeInBytes componentType
  let elementSize := componentByteSize * componentCount
  if elementSize = 0 then .error "ZeroDivisionError"
  else if data.length < arrayCount * elementSize then
    .error "Array buffer too short"
  else
    .ok ((List.range arrayCount).filterMap (fun i =>
      unpackGroup componentType ((data.drop (i * elementSize)).take elementSize)))

/-- Python list indexing `l[i]` with an int index (negative counts from the
end, out of range raises `IndexError`). -/
def pyListGet (l : List PValue) (i : Int) : Except String PValue :=
  let j : Int := if i < 0 then (l.length : Int) + i else i
  if 0 ≤ j ∧ j < (l.length : Int) then
    match l.get? j.toNat with
    | some v => .ok v
    | none => .error "IndexError"
  else .error "IndexError"

/-- Coercion of a decoded value used as a Python slice or list index: ints
(and bools, which are ints in Python) are accepted, anything else raises
`TypeError`. -/
def asInt (v : PValue) : Except String Int :=
  match v with
  | .int i => .ok i
  | .bool b => .ok (if b then 1 else 0)
  | _ => .error "TypeError, indices must be integers"

/-- Python sentinel for an absent `componentType`: `None` compared against
type-name strings is unequal, and `readScalarValues` raises its unhandled
message when formatting it; the string sentinel gets the same behaviour. -/
def optStr (o : Option String) : String := o.getD "None"

/-- Model of `GltfDocument.readDynamicSizeArrayValues(propType,
componentType, arrayOffsets, stringOffsets, data)` (gltf.py lines 487-512).
The call sites always pass `arrayOffsets` and `data`, so the `None` guards
of lines 488-491 cannot fire and are not modelled. -/
def readDynamicSizeArrayValues (propType : String)
    (componentType : Option String) (arrayOffsets : List PValue)
    (stringOffsets : Option (List PValue)) (data : List Nat) :
    Except String (List PValue) :=
  (List.range (arrayOffsets.length - 1)).mapM (fun i => do
    let a0 ← asInt (← pyListGet arrayOffsets (i : Int))
    let a1 ← asInt (← pyListGet arrayOffsets ((i : Int) + 1))
    if propType = "STRING" then
      match stringOffsets with
      | none => throw "stringOffsets missing, got None"
      | some sOff => do
        let numStrings := a1 - a0
        let js := if numStrings ≤ 0 then [] else List.range numStrings.toNat
        let strs ← js.mapM (fun j => do
          let s0 ← asInt (← pyListGet sOff (a0 + (j : Int)))
          let s1 ← asInt (← pyListGet sOff (a0 + (j : Int) + 1))
          pure (PValue.utf8 (pySlice data s0 s1)))
        pure (PValue.arr strs)
    else do
      let rawbytes := pySlice data a0 a1
      let typeByteSize := componentTypeSizeInBytes (optStr componentType)
      let cc := rawbytes.length / typeByteSize
      let vs ← readScalarValues (optStr componentType) cc rawbytes
      pure (PValue.arr vs))

/-! ## glTF document model

The slices of the glTF JSON that `getFeatureTablePropertyValues` reads are
modelled as structures whose optional fields are the JSON keys the source
tests with `in` before reading; required fields are the keys the source
reads unconditionally (a document lacking them raises `KeyError` before
any decoding starts and carries no decodable property). -/

structure BufferView where
  buffer : Nat
  byteOffset : Option Nat
  byteLength : Nat
deriving DecidableEq, Repr

structure ClassProperty where
  type : Option String
  componentType : Option String
  array : Option Bool
  count : Option Nat
  componentCount : Option Nat
  enumType : Option String
  normalized : Option Bool
  offset : Option ℚ
  scale : Option ℚ
deriving DecidableEq, Repr

structure ClassDef where
  properties : List (String × ClassProperty)
deriving DecidableEq, Repr

structure EnumValueDef where
  value : Int
  name : String
deriving DecidableEq, Repr

structure EnumSchemaDef where
  valueType : Option String
  values : List EnumValueDef
deriving DecidableEq, Repr

structure PropertyRef where
  bufferView : Option Nat
  values : Option Nat
  stringOffsetBufferView : Option Nat
  stringOffsets : Option Nat
  arrayOffsets : Option Nat
  arrayOffsetType : Option String
  stringOffsetType : Option String
  offsetType : Option String
deriving DecidableEq, Repr

/-- Normalized feature/property table; `className` is the JSON key
`class`, `count` the element count the source reads as
`featureTable["count"]`. -/
structure FeatureTable where
  className : String
  count : Nat
  properties : List (String × PropertyRef)
deriving DecidableEq, Repr

inductive Mode where
  | UNKNOWN
  | EXT_FEATURE_METADATA
  | EXT_STRUCTURAL_METADATA
deriving DecidableEq, Repr

structure GltfModel where
  mode : Mode
  bufferViews : List BufferView
  buffers : List (List Nat)
  classes : List (String × ClassDef)
  enums : List (String × EnumSchemaDef)
deriving DecidableEq, Repr

/-- Lookup in a JSON object modelled as an association list. -/
def dictGet (l : List (String × α)) (k : String) : Option α :=
  (l.find? (fun p => p.1 == k)).map (fun p => p.2)

/-- Python dict/list access that raises on a missing key or index. -/
def require (o : Option α) (msg : String) : Except String α :=
  match o with
  | some a => .ok a
  | none => .error msg

/-- Lookup in `valueToEnumMap` (gltf.py lines 595-597, 688-689, 754-756):
the dict is built in list order so a duplicate value keeps the last name;
a missing value raises `KeyError`. -/
def valueToEnumLookup (values : List EnumValueDef) (v : Int) : Except String String :=
  match values.reverse.find? (fun ev => ev.value == v) with
  | some ev => .ok ev.name
  | none => .error "KeyError, enum value not in schema"

/-- Coercion of a decoded raw value to an enum dictionary key: Python ints
and bools index directly, a float key matches the equal int when integral,
and anything else misses. -/
def asEnumKey (v : PValue) : Except String Int :=
  match v with
  | .int i => .ok i
  | .bool b => .ok (if b then 1 else 0)
  | .rat q => if q.den = 1 then .ok q.num else .error "KeyError, enum value not in schema"
  | _ => .error "KeyError, enum value not in schema"

/-- Model of `GltfDocument.getFeatureTablePropertyValues(ftName, propName)`
(gltf.py lines 514-847), starting after the table-name resolution: the
property is looked up in the given table and decoded according to its
schema class.  The source returns `None` (here `.ok none`) for an
unhandled non-array type in the old extension. -/
def getFeatureTablePropertyValues (doc : GltfModel) (featureTable : FeatureTable)
    (propName : String) : Except String (Option (List PValue)) := do
  let propRef ← require (dictGet featureTable.properties propName)
    "Property not found in FeatureTable"
  if doc.mode = Mode.UNKNOWN then throw "Unhandled metadata mode"
  let bufferView ← require
    (if doc.mode = Mode.EXT_FEATURE_METADATA then propRef.bufferView else propRef.values)
    "KeyError, values buffer view reference missing"
  let classDef ← require (dictGet doc.classes featureTable.className)
    "Class not found in schema"
  let classProp ← require (dictGet classDef.properties propName)
    "Property not found in class"
  let propType ← require classProp.type "Property has no type"
  let bv ← require (doc.bufferViews.get? bufferView) "IndexError, bufferViews"
  let buffer ← require (doc.buffers.get? bv.buffer) "IndexError, buffers"
  let bufferByteOffset := bv.byteOffset.getD 0
  let bufferByteLength := bv.byteLength
  let isArrayProp :=
    (doc.mode = Mode.EXT_STRUCTURAL_METADATA ∧ classProp.array = some true) ∨
      (doc.mode = Mode.EXT_FEATURE_METADATA ∧ propType = "ARRAY")
  if isArrayProp then
    match (if doc.mode = Mode.EXT_FEATURE_METADATA then classProp.componentCount
        else classProp.count) with
    | some componentCount =>
      match classProp.componentType with
      | some componentType => do
        let componentCount2 :=
          if doc.mode = Mode.EXT_STRUCTURAL_METADATA then
            componentCount * getComponentCount propType
          else componentCount
        let values ← readFixedSizeArrayValues componentType featureTable.count
          componentCount2
          (pySlice buffer (bufferByteOffset : Int)
            ((bufferByteOffset : Int) + (bufferByteLength : Int)))
        if componentType ≠ "STRING" ∧ componentType ≠ "BOOLEAN" then do
          let offset := classProp.offset.getD 0
          let scale := classProp.scale.getD 1
          let denormalizeValue := classProp.normalized.getD false
          if offset ≠ 0 ∨ scale ≠ 1 ∨ denormalizeValue ≠ false then do
            let newvalues ← values.mapM (fun arrayVal =>
              match arrayVal with
              | .arr comps => do
                let cs ← comps.mapM (fun v =>
                  applyOffsetScale componentType v offset scale denormalizeValue)
                pure (PValue.arr cs)
              | _ => throw "TypeError, value not iterable")
            pure (some newvalues)
          else pure (some values)
        else pure (some values)
      | none =>
        if propType = "BOOLEAN" then do
          let byteCount := (featureTable.count * componentCount + 7) / 8
          let dataSlice := pySlice buffer (bufferByteOffset : Int)
            ((bufferByteOffset : Int) + ((min byteCount bufferByteLength : Nat) : Int))
          if dataSlice.length ≠ byteCount then throw "struct.error"
          let values := (List.range featureTable.count).map (fun i =>
            PValue.arr ((List.range componentCount).map (fun j =>
              PValue.bool (((dataSlice.getD ((i * componentCount + j) / 8) 0 >>>
                ((i * componentCount + j) % 8)) &&& 1) = 1))))
          pure (some values)
        else if propType = "ENUM" then do
          let enumType ← require classProp.enumType "KeyError, enumType"
          let enumSchema ← require (dictGet doc.enums enumType)
            "enumType not found in schema"
          let enumValueType := enumSchema.valueType.getD "UINT16"
          let enumValues ← readFixedSizeArrayValues enumValueType
            featureTable.count componentCount
            (pySlice buffer (bufferByteOffset : Int)
              ((bufferByteOffset : Int) + (bufferByteLength : Int)))
          let values ← enumValues.mapM (fun arrayValue =>
            match arrayValue with
            | .arr comps => do
              let cs ← comps.mapM (fun v => do
                let k ← asEnumKey v
                let n ← valueToEnumLookup enumSchema.values k
                pure (PValue.str n))
              pure (PValue.arr cs)
            | _ => throw "TypeError, value not iterable")
          pure (some values)
        else throw "NameError, componentType referenced before assignment"
    | none => do
      let arrayOffsetType := propRef.arrayOffsetType.getD "UINT32"
      let arrayOffsetBufferView ← require
        (if doc.mode = Mode.EXT_FEATURE_METADATA then propRef.stringOffsetBufferView
          else propRef.arrayOffsets)
        "KeyError, array offsets buffer view reference missing"
      let aobv ← require (doc.bufferViews.get? arrayOffsetBufferView)
        "IndexError, bufferViews"
      let arrayOffsetBuffer ← require (doc.buffers.get? aobv.buffer)
        "IndexError, buffers"
      let arrayOffsetStart := aobv.byteOffset.getD 0
      let arrayOffsetLen := aobv.byteLength
      let arrayOffsets ← readScalarValues arrayOffsetType (featureTable.count + 1)
        (pySlice arrayOffsetBuffer (arrayOffsetStart : Int)
          ((arrayOffsetStart : Int) + (arrayOffsetLen : Int)))
      let bufferByteOffset2 ← require bv.byteOffset "KeyError, byteOffset"
      let bufferByteLength2 := bv.byteLength
      let stringOffsets ←
        if propType = "STRING" then do
          let stringOffsetType := propRef.stringOffsetType.getD "UINT32"
          let stringOffsetBufferView ← require
            (if doc.mode = Mode.EXT_FEATURE_METADATA then propRef.stringOffsetBufferView
              else propRef.stringOffsets)
            "KeyError, string offsets buffer view reference missing"
          let sobv ← require (doc.bufferViews.get? stringOffsetBufferView)
            "IndexError, bufferViews"
          let stringOffsetBuffer ← require (doc.buffers.get? sobv.buffer)
            "IndexError, buffers"
          let stringOffsetStart := sobv.byteOffset.getD 0
          let stringOffsetLen := sobv.byteLength
          let stringOffsetCount :=
            stringOffsetLen / componentTypeSizeInBytes stringOffsetType
          let so ← readScalarValues stringOffsetType stringOffsetCount
            (pySlice stringOffsetBuffer (stringOffsetStart : Int)
              ((stringOffsetStart : Int) + (stringOffsetLen : Int)))
          pure (some so)
        else pure none
      if classProp.componentType = some "ENUM" then do
        let enumType ← require classProp.enumType "KeyError, enumType"
        let enumSchema ← require (dictGet doc.enums enumType)
          "enumType not found in schema"
        let enumValueType := enumSchema.valueType.getD "UINT16"
        let enumValues ← readDynamicSizeArrayValues propType (some enumValueType)
          arrayOffsets stringOffsets
          (pySlice buffer (bufferByteOffset2 : Int)
            ((bufferByteOffset2 : Int) + (bufferByteLength2 : Int)))
        let values ← enumValues.mapM (fun arrayValue =>
          match arrayValue with
          | .arr comps => do
            let cs ← comps.mapM (fun v => do
              let k ← asEnumKey v
              let n ← valueToEnumLookup enumSchema.values k
              pure (PValue.str n))
            pure (PValue.arr cs)
          | _ => throw "TypeError, value not iterable")
        pure (some values)
      else do
        let values ← readDynamicSizeArrayValues propType classProp.componentType
          arrayOffsets stringOffsets
          (pySlice buffer (bufferByteOffset2 : Int)
            ((bufferByteOffset2 : Int) + (bufferByteLength2 : Int)))
        if classProp.componentType ≠ some "STRING" ∧
            classProp.componentType ≠ some "BOOLEAN" then do
          let offset := classProp.offset.getD 0
          let scale := classProp.scale.getD 1
          let denormalizeValue := classProp.normalized.getD false
          if offset ≠ 0 ∨ scale ≠ 1 ∨ denormalizeValue ≠ false then do
            let newvalues ← values.mapM (fun arrayVal =>
              match arrayVal with
              | .arr comps => do
                let cs ← comps.mapM (fun v =>
                  applyOffsetScale (optStr classProp.componentType) v offset scale
                    denormalizeValue)
                pure (PValue.arr cs)
              | _ => throw "TypeError, value not iterable")
            pure (some newvalues)
          else pure (some values)
        else pure (some values)
  else if propType = "BOOLEAN" then do
    let byteCount := (featureTable.count + 7) / 8
    let o ← require bv.byteOffset "KeyError, byteOffset"
    let dataSlice := pySlice buffer (o : Int)
      ((o : Int) + ((min byteCount bv.byteLength : Nat) : Int))
    if dataSlice.length ≠ byteCount then throw "struct.error"
    let values := (List.range featureTable.count).map (fun i =>
      PValue.bool (((dataSlice.getD (i / 8) 0 >>> (i % 8)) &&& 1) = 1))
    pure (some values)
  else if propType = "ENUM" then do
    let enumType ← require classProp.enumType "KeyError, enumType"
    let enumSchema ← require (dictGet doc.enums enumType) "enumType not found in schema"
    let enumValueType := enumSchema.valueType.getD "UINT16"
    let enumValues ← readScalarValues enumValueType featureTable.count
      (pySlice buffer (bufferByteOffset : Int)
        ((bufferByteOffset : Int) + (bufferByteLength : Int)))
    let values ← enumValues.mapM (fun v => do
      let k ← asEnumKey v
      let n ← valueToEnumLookup enumSchema.values k
      pure (PValue.str n))
    pure (some values)
  else if propType = "INT32" then do
    let o ← require bv.byteOffset "KeyError, byteOffset"
    let vs ← readScalarValues "INT32" featureTable.count
      (pySlice buffer (o : Int) ((o : Int) + (bv.byteLength : Int)))
    pure (some vs)
  else if propType = "UINT32" then do
    let o ← require bv.byteOffset "KeyError, byteOffset"
    let vs ← readScalarValues "UINT32" featureTable.count
      (pySlice buffer (o : Int) ((o : Int) + (bv.byteLength : Int)))
    pure (some vs)
  else if propType = "UINT8" then do
    let o ← require bv.byteOffset "KeyError, byteOffset"
    let vs ← readScalarValues "UINT8" featureTable.count
      (pySlice buffer (o : Int) ((o : Int) + (bv.byteLength : Int)))
    pure (some vs)
  else if propType = "FLOAT32" then do
    let o ← require bv.byteOffset "KeyError, byteOffset"
    let vs ← readScalarValues "FLOAT32" featureTable.count
      (pySlice buffer (o : Int) ((o : Int) + (bv.byteLength : Int)))
    pure (some vs)
  else if propType = "STRING" then do
    if propRef.offsetType.isSome ∧ propRef.offsetType ≠ some "UINT32" then
      throw "Unhandled offsetType"
    let stringOffsetBufferView ← require
      (if doc.mode = Mode.EXT_FEATURE_METADATA then propRef.stringOffsetBufferView
        else propRef.stringOffsets)
      "KeyError, string offsets buffer view reference missing"
    let sobv ← require (doc.bufferViews.get? stringOffsetBufferView)
      "IndexError, bufferViews"
    let stringOffsetBuffer ← require (doc.buffers.get? sobv.buffer)
      "IndexError, buffers"
    let start ← require sobv.byteOffset "KeyError, byteOffset"
    let length0 := sobv.byteLength
    let numOffsets := featureTable.count + 1
    let length1 := if length0 > numOffsets * 4 then numOffsets * 4 else length0
    let sData := pySlice stringOffsetBuffer (start : Int) ((start : Int) + (length1 : Int))
    if sData.length ≠ numOffsets * 4 then throw "struct.error"
    let stringOffsets := leWords 4 sData
    let bbo ← require bv.byteOffset "KeyError, byteOffset"
    let values := (List.range (stringOffsets.length - 1)).map (fun i =>
      PValue.utf8 (pySlice buffer ((bbo + stringOffsets.getD i 0 : Nat) : Int)
        ((bbo + stringOffsets.getD (i + 1) 0 : Nat) : Int)))
    pure (some values)
  else if doc.mode = Mode.EXT_STRUCTURAL_METADATA then do
    let componentType ← require classProp.componentType "KeyError, componentType"
    if propType = "SCALAR" then do
      let vs ← readScalarValues componentType featureTable.count
        (pySlice buffer (bufferByteOffset : Int)
          ((bufferByteOffset : Int) + (bufferByteLength : Int)))
      pure (some vs)
    else do
      let componentCount ←
        (if propType = "VEC2" then pure 2
         else if propType = "VEC3" then pure 3
         else if propType = "VEC4" then pure 4
         else if propType = "MAT2" then pure 4
         else if propType = "MAT3" then pure 9
         else if propType = "MAT4" then pure 16
         else throw "Unhandled property type")
      let vs ← readFixedSizeArrayValues componentType featureTable.count componentCount
        (pySlice buffer (bufferByteOffset : Int)
          ((bufferByteOffset : Int) + (bufferByteLength : Int)))
      pure (some vs)
  else
    pure none

end WffTools

namespace WffTools

/-! ## Theorems: byte-level utility lemmas -/

theorem bytesToNatLE_natToBytesLE (k n : Nat) (h : n < 2 ^ (8 * k)) :
    bytesToNatLE (natToBytesLE k n) = n := by
  induction k generalizing n with
  | zero => interval_cases n; rfl
  | succ k ih =>
    have hn : n / 256 < 2 ^ (8 * k) := by
      rw [Nat.div_lt_iff_lt_mul (by norm_num)]
      calc n < 2 ^ (8 * (k + 1)) := h
        _ = 2 ^ (8 * k) * 256 := by ring
    simp only [natToBytesLE, bytesToNatLE, ih _ hn]
    omega

theorem length_natToBytesLE (k n : Nat) : (natToBytesLE k n).length = k := by
  induction k generalizing n with
  | zero => rfl
  | succ k ih => simp [natToBytesLE, ih]

theorem pySlice_nonneg (l : List Nat) (i j : Nat) :
    pySlice l (i : Int) (j : Int) = (l.take j).drop i := by
  simp only [pySlice]
  rw [if_neg (by omega), if_neg (by omega)]
  have hmin : ∀ (a : Nat), (min (a : Int) ((l.length : Nat) : Int)).toNat = min a l.length := by
    intro a; omega
  rw [hmin i, hmin j]
  rcases le_or_lt j l.length with hj | hj
  · rw [min_eq_left hj]
    rcases le_or_lt i l.length with hi | hi
    · rw [min_eq_left hi]
    · rw [min_eq_right (le_of_lt hi)]
      have hlen : (l.take j).length = j := by rw [List.length_take]; omega
      rw [List.drop_eq_nil_of_le (by omega), List.drop_eq_nil_of_le (by omega)]
  · rw [min_eq_right (le_of_lt hj), List.take_of_length_le (le_of_lt hj), List.take_length]
    rcases le_or_lt i l.length with hi | hi
    · rw [min_eq_left hi]
    · rw [min_eq_right (le_of_lt hi)]
      rw [List.drop_eq_nil_of_le (le_refl _), List.drop_eq_nil_of_le (le_of_lt hi)]

theorem length_leWords (s : Nat) (data : List Nat) :
    (leWords s data).length = data.length / s := by
  simp [leWords]

theorem leWords_nil (s : Nat) : leWords s [] = [] := by
  simp [leWords]

theorem leWords_cons (s : Nat) (blk rest : List Nat) (hb : blk.length = s)
    (hs : 0 < s) : leWords s (blk ++ rest) = bytesToNatLE blk :: leWords s rest := by
  simp only [leWords, List.length_append, hb]
  have hlen : (s + rest.length) / s = rest.length / s + 1 := by
    rw [Nat.add_comm s rest.length, Nat.add_div_right _ hs]
  rw [hlen, List.range_succ_eq_map, List.map_cons, List.map_map]
  congr 1
  · rw [Nat.zero_mul, List.drop_zero, List.take_left' hb]
  · apply List.map_congr_left
    intro i _
    have hstep : (Nat.succ i) * s = blk.length + i * s := by
      rw [hb, Nat.succ_mul, Nat.add_comm]
    simp only [Function.comp_apply, hstep, List.drop_append]

theorem drop_take_middle (pre mid post : List Nat) :
    ((pre ++ mid ++ post).take (pre.length + mid.length)).drop pre.length = mid := by
  rw [List.append_assoc, List.take_append, List.drop_left]
  exact List.take_left' rfl

/-! ## Theorems for claim C4: decompression length law -/

/-- Claim C4 fails as stated: a Store (method 0) call succeeds returning
the 3-byte input unchanged although the expected uncompressed size is 5;
the source has no length check on the Store path. -/
theorem c4_store_length_counterexample :
    decompressFileContents (fun _ => .error "no deflate") none 0 5 [1, 2, 3] =
        .ok [1, 2, 3] ∧
      ([1, 2, 3] : List Nat).length ≠ 5 := by
  exact ⟨rfl, by decide⟩

/-- Claim C4 (amended): whenever `decompressFileContents` succeeds, either
the method was Deflate or Zstd (old or new) and the output length equals
the expected uncompressed size, or the method was Store and the output is
the input byte string unchanged, with no check against the expected size. -/
theorem c4_decompress_length_law
    (inflateRaw : List Nat → Except String (List Nat))
    (zstdBackend : Option (List Nat → Nat → Except String (List Nat)))
    (compMethod uncompressedFilesize : Nat) (inBytes out : List Nat)
    (h : decompressFileContents inflateRaw zstdBackend compMethod
      uncompressedFilesize inBytes = .ok out) :
    ((compMethod = ZIP_COMPRESSION_METHOD_DEFLATE ∨
        compMethod = ZIP_COMPRESSION_METHOD_ZSTD ∨
        compMethod = ZIP_COMPRESSION_METHOD_ZSTD_OLD) ∧
      out.length = uncompressedFilesize) ∨
    (compMethod = ZIP_COMPRESSION_METHOD_STORE ∧ out = inBytes) := by
  unfold decompressFileContents at h
  by_cases h1 : compMethod = ZIP_COMPRESSION_METHOD_DEFLATE
  · rw [if_pos h1] at h
    left
    refine ⟨Or.inl h1, ?_⟩
    cases hi : inflateRaw inBytes with
    | error e => simp only [hi] at h; injection h
    | ok u =>
      simp only [hi] at h
      by_cases hl : u.length ≠ uncompressedFilesize
      · rw [if_pos hl] at h; injection h
      · rw [if_neg hl] at h
        injection h with h4
        subst h4
        omega
  · rw [if_neg h1] at h
    by_cases h2 : compMethod = ZIP_COMPRESSION_METHOD_ZSTD ∨
        compMethod = ZIP_COMPRESSION_METHOD_ZSTD_OLD
    · rw [if_pos h2] at h
      left
      refine ⟨Or.inr h2, ?_⟩
      cases zstdBackend with
      | none => simp only [] at h; injection h
      | some zd =>
        cases hz : zd inBytes uncompressedFilesize with
        | error e => simp only [hz] at h; injection h
        | ok u =>
          simp only [hz] at h
          by_cases hl : u.length ≠ uncompressedFilesize
          · rw [if_pos hl] at h; injection h
          · rw [if_neg hl] at h
            injection h with h4
            subst h4
            omega
    · rw [if_neg h2] at h
      by_cases h3 : compMethod ≠ ZIP_COMPRESSION_METHOD_STORE
      · rw [if_pos h3] at h; injection h
      · rw [if_neg h3] at h
        injection h with h4
        subst h4
        right
        exact ⟨by omega, rfl⟩

/-- Witness for C4: a successful Deflate call at a concrete input, whose
output length the law then pins to the expected size. -/
theorem c4_decompress_length_law_witness :
    decompressFileContents (fun _ => Except.ok [7, 7]) none 8 2 [9] = .ok [7, 7] ∧
      (((8 = ZIP_COMPRESSION_METHOD_DEFLATE ∨ 8 = ZIP_COMPRESSION_METHOD_ZSTD ∨
          8 = ZIP_COMPRESSION_METHOD_ZSTD_OLD) ∧
        ([7, 7] : List Nat).length = 2) ∨
      (8 = ZIP_COMPRESSION_METHOD_STORE ∧ ([7, 7] : List Nat) = [9])) :=
  ⟨rfl, c4_decompress_length_law (fun _ => Except.ok [7, 7]) none 8 2 [9] [7, 7] rfl⟩

/-! ## Theorems for claim C5: missing ZIP64 offset record -/

theorem length_encodeExtraTuple (t : Nat × Nat × List Nat) :
    (encodeExtraTuple t).length = 4 + t.2.2.length := by
  simp [encodeExtraTuple, length_natToBytesLE]
  omega

theorem length_encodeExtraTuples_ge (ts : List (Nat × Nat × List Nat)) :
    ts.length ≤ (encodeExtraTuples ts).length := by
  induction ts with
  | nil => simp [encodeExtraTuples]
  | cons t ts ih =>
    simp only [encodeExtraTuples, List.map_cons, List.flatten_cons,
      List.length_append, List.length_cons]
    have := length_encodeExtraTuple t
    simp only [encodeExtraTuples] at ih
    omega

theorem zip64Walk_no_match (file : List Nat) (ts : List (Nat × Nat × List Nat))
    (pre : List Nat) (fuel : Nat) (hwf : WFExtraTuples ts)
    (hnone : ∀ t ∈ ts, ¬(t.1 = 1 ∧ t.2.1 = 8)) (hfuel : ts.length < fuel) :
    zip64ExtraFieldWalk file (pre ++ encodeExtraTuples ts)
      (pre.length + (encodeExtraTuples ts).length) fuel pre.length = .ok none := by
  induction ts generalizing pre fuel with
  | nil =>
    cases fuel with
    | zero => omega
    | succ fuel =>
      simp [zip64ExtraFieldWalk, encodeExtraTuples]
  | cons t ts ih =>
    cases fuel with
    | zero => omega
    | succ fuel =>
      obtain ⟨htag, hsize, hpay⟩ := hwf t (List.mem_cons_self t ts)
      have henc : encodeExtraTuples (t :: ts) =
          encodeExtraTuple t ++ encodeExtraTuples ts := by
        simp [encodeExtraTuples]
      have hel : (encodeExtraTuple t).length = 4 + t.2.1 := by
        rw [length_encodeExtraTuple, hpay]
      rw [henc]
      rw [zip64ExtraFieldWalk]
      have hpos : pre.length <
          pre.length + (encodeExtraTuple t ++ encodeExtraTuples ts).length := by
        rw [List.length_append]
        omega
      rw [if_pos hpos]
      have hcast4 : (pre.length : Int) + 4 = ((pre.length + 4 : Nat) : Int) := by
        push_cast; ring
      have hdr4 : pySlice (pre ++ (encodeExtraTuple t ++ encodeExtraTuples ts))
          (pre.length : Int) ((pre.length : Int) + 4) =
          natToBytesLE 2 t.1 ++ natToBytesLE 2 t.2.1 := by
        rw [hcast4, pySlice_nonneg]
        have hsplit : pre ++ (encodeExtraTuple t ++ encodeExtraTuples ts) =
            pre ++ (natToBytesLE 2 t.1 ++ natToBytesLE 2 t.2.1) ++
              (t.2.2 ++ encodeExtraTuples ts) := by
          simp [encodeExtraTuple, List.append_assoc]
        rw [hsplit]
        have h4 : pre.length + 4 =
            pre.length + (natToBytesLE 2 t.1 ++ natToBytesLE 2 t.2.1).length := by
          simp [length_natToBytesLE]
        rw [h4]
        exact drop_take_middle pre _ _
      rw [hdr4]
      have hlen4 : (natToBytesLE 2 t.1 ++ natToBytesLE 2 t.2.1).length = 4 := by
        simp [length_natToBytesLE]
      rw [if_pos hlen4]
      have htake : (natToBytesLE 2 t.1 ++ natToBytesLE 2 t.2.1).take 2 =
          natToBytesLE 2 t.1 :=
        List.take_left' (length_natToBytesLE 2 t.1)
      have hdrop : (natToBytesLE 2 t.1 ++ natToBytesLE 2 t.2.1).drop 2 =
          natToBytesLE 2 t.2.1 := by
        have := List.drop_left (natToBytesLE 2 t.1) (natToBytesLE 2 t.2.1)
        rwa [length_natToBytesLE] at this
      rw [htake, hdrop, bytesToNatLE_natToBytesLE 2 t.1 (by norm_num at htag ⊢; omega),
        bytesToNatLE_natToBytesLE 2 t.2.1 (by norm_num at hsize ⊢; omega)]
      rw [if_neg (hnone t (List.mem_cons_self t ts))]
      have harr : pre ++ (encodeExtraTuple t ++ encodeExtraTuples ts) =
          (pre ++ encodeExtraTuple t) ++ encodeExtraTuples ts := by
        rw [List.append_assoc]
      have hlen2 : pre.length + (encodeExtraTuple t ++ encodeExtraTuples ts).length =
          (pre ++ encodeExtraTuple t).length + (encodeExtraTuples ts).length := by
        simp [List.length_append]
        omega
      have hpos2 : pre.length + 4 + t.2.1 = (pre ++ encodeExtraTuple t).length := by
        rw [List.length_append, hel]
        omega
      rw [harr, hlen2, hpos2]
      exact ih (pre ++ encodeExtraTuple t) fuel
        (fun u hu => hwf u (List.mem_cons_of_mem t hu))
        (fun u hu => hnone u (List.mem_cons_of_mem t hu)) (by simpa using Nat.lt_of_succ_lt_succ hfuel)

/-- Claim C5 fails as stated: a concrete CDE whose relative offset is the
ZIP64 sentinel and whose extra field holds one well-formed tuple with tag
2 and size 0 makes the source return `None` silently (`.ok none`), not a
distinct error. -/
theorem c5_zip64_missing_counterexample :
    getLocalFileHeaderFromCentralDirectoryEntry []
      { signature := [], version := [], versionNeeded := [], generalBits := [],
        compressionMethod := [], lastModTime := [], lastModDate := [], crc32 := [],
        compressedSize := 0, uncompressedSize := 0, filenameLength := 0,
        extraFieldLength := 4, fileCommentLength := 0, distNumber := 0,
        internalFileAttributes := [], externalFileAttributes := [],
        relativeOffsetOfLocalHeader := 0xFFFFFFFF, filename := [],
        extraField := [2, 0, 0, 0], fileComment := [] } = .ok none := by
  rfl

/-- Claim C5 (amended): for every central directory entry whose relative
offset equals `0xFFFFFFFF` and whose extra field is a well-formed tuple
sequence containing no tuple with tag `0x0001` and size 8, resolving the
local file header returns the absent result `None` silently — it does not
fail with a distinct error. -/
theorem c5_zip64_missing_silent (file : List Nat) (cde : CentralDirectoryEntry)
    (ts : List (Nat × Nat × List Nat))
    (hoff : cde.relativeOffsetOfLocalHeader = 0xFFFFFFFF)
    (hef : cde.extraField = encodeExtraTuples ts)
    (hlen : cde.extraFieldLength = (encodeExtraTuples ts).length)
    (hwf : WFExtraTuples ts)
    (hnone : ∀ t ∈ ts, ¬(t.1 = 1 ∧ t.2.1 = 8)) :
    getLocalFileHeaderFromCentralDirectoryEntry file cde = .ok none := by
  unfold getLocalFileHeaderFromCentralDirectoryEntry
  rw [if_pos hoff, hef, hlen]
  have h := zip64Walk_no_match file ts [] ((encodeExtraTuples ts).length + 1) hwf hnone
    (by have := length_encodeExtraTuples_ge ts; omega)
  simpa using h

/-- Witness for C5 at a concrete CDE with one non-matching tuple. -/
theorem c5_zip64_missing_silent_witness :
    WFExtraTuples [(2, 0, ([] : List Nat))] ∧
      getLocalFileHeaderFromCentralDirectoryEntry [0, 0]
        { signature := [], version := [], versionNeeded := [], generalBits := [],
          compressionMethod := [], lastModTime := [], lastModDate := [], crc32 := [],
          compressedSize := 0, uncompressedSize := 0, filenameLength := 0,
          extraFieldLength := 4, fileCommentLength := 0, distNumber := 0,
          internalFileAttributes := [], externalFileAttributes := [],
          relativeOffsetOfLocalHeader := 0xFFFFFFFF, filename := [],
          extraField := [2, 0, 0, 0], fileComment := [] } = .ok none :=
  ⟨by intro t ht; simp at ht; simp [ht],
    c5_zip64_missing_silent [0, 0] _ [(2, 0, [])] rfl (by rfl) (by rfl)
      (by intro t ht; simp at ht; simp [ht])
      (by intro t ht; simp at ht; simp [ht])⟩

/-! ## Theorems for claim C9: EOCD scan window -/

/-- Claim C9 fails as stated: on a 68-byte archive that does contain a
central-directory signature followed by the EOCD signature, the source
seeks to `filesize - 320`, which is negative, and the uncaught `OSError`
propagates instead of the scan starting at the file start. -/
theorem c9_eocd_short_file_counterexample :
    getLastEntryInCentralDirectory
      (STARTOFCENTRALDIRECTORY ++ List.replicate 42 0 ++
        ENDOFCENTRALDIRECTORY ++ List.replicate 18 0) =
      .error "OSError invalid argument, negative seek" := by
  rfl

/-- Claim C9 (amended): `getLastEntryInCentralDirectory` fails on every
file shorter than 320 bytes (the negative seek raises); on files of at
least 320 bytes its result depends only on the trailing 320-byte window,
and equals the parse of the slice between the last central-directory
signature occurrence and the last EOCD signature occurrence in that window
when the former precedes the latter, and `None` otherwise. -/
theorem c9_eocd_scan_window (f1 f2 : List Nat) :
    (f1.length < 320 → ∃ e, getLastEntryInCentralDirectory f1 = .error e) ∧
      (320 ≤ f1.length → 320 ≤ f2.length →
        f1.drop (f1.length - 320) = f2.drop (f2.length - 320) →
        getLastEntryInCentralDirectory f1 = getLastEntryInCentralDirectory f2) ∧
      (320 ≤ f1.length →
        getLastEntryInCentralDirectory f1 =
          (if rfind (f1.drop (f1.length - 320)) STARTOFCENTRALDIRECTORY <
                rfind (f1.drop (f1.length - 320)) ENDOFCENTRALDIRECTORY ∧
              rfind (f1.drop (f1.length - 320)) STARTOFCENTRALDIRECTORY ≠
                rfind (f1.drop (f1.length - 320)) ENDOFCENTRALDIRECTORY then
            .ok (some (parseCentralDirectoryEntry
              (pySlice (f1.drop (f1.length - 320))
                (rfind (f1.drop (f1.length - 320)) STARTOFCENTRALDIRECTORY)
                (rfind (f1.drop (f1.length - 320)) ENDOFCENTRALDIRECTORY))))
          else .ok none)) := by
  refine ⟨?_, ?_, ?_⟩
  · intro h
    refine ⟨"OSError invalid argument, negative seek", ?_⟩
    simp only [getLastEntryInCentralDirectory]
    rw [if_pos h]
  · intro h1 h2 heq
    simp only [getLastEntryInCentralDirectory]
    rw [if_neg (show ¬f1.length < 320 by omega), heq,
      if_neg (show ¬f2.length < 320 by omega)]
  · intro h1
    simp only [getLastEntryInCentralDirectory]
    rw [if_neg (show ¬f1.length < 320 by omega)]

/-- Witness for C9: two concrete files of lengths 320 and 321 sharing the
same trailing 320 bytes give the same scan result. -/
theorem c9_eocd_scan_window_witness :
    320 ≤ (List.replicate 320 0 : List Nat).length ∧
      320 ≤ (7 :: List.replicate 320 0 : List Nat).length ∧
      (List.replicate 320 0 : List Nat).drop ((List.replicate 320 0 : List Nat).length - 320) =
        (7 :: List.replicate 320 0 : List Nat).drop
          ((7 :: List.replicate 320 0 : List Nat).length - 320) ∧
      getLastEntryInCentralDirectory (List.replicate 320 0) =
        getLastEntryInCentralDirectory (7 :: List.replicate 320 0) :=
  ⟨by simp, by simp, by simp,
    (c9_eocd_scan_window (List.replicate 320 0) (7 :: List.replicate 320 0)).2.1
      (by simp) (by simp) (by simp)⟩

/-! ## Theorems for claim C8: GLB second-chunk type handling -/

/-- Claim C8 fails as stated: a GLB buffer with a valid header and JSON
chunk whose following chunk has type `0x04030201` (not BIN) makes
`getChunksFromBuffer` raise `Glb binary chunk header error` instead of
returning the JSON with no BIN part. -/
theorem c8_glb_nonbin_chunk_counterexample :
    getChunksFromBuffer
      ([0x67, 0x6C, 0x54, 0x46] ++ [2, 0, 0, 0] ++ [0, 0, 0, 0] ++
        [4, 0, 0, 0] ++ [0x4A, 0x53, 0x4F, 0x4E] ++ [110, 117, 108, 108] ++
        [4, 0, 0, 0] ++ [1, 2, 3, 4] ++ [9, 9, 9, 9]) =
      .error "Glb binary chunk header error" := by
  rfl

/-- Claim C8 (amended): for a GLB buffer passing the header checks (magic,
version 2, first chunk JSON, non-empty JSON chunk), when at most 8 bytes
follow the JSON chunk no BIN part is returned; when more than 8 bytes
follow, a second chunk whose type is not `0x004E4942` makes the call fail
with `Glb binary chunk header error`, and a BIN part is returned only when
the type equals `0x004E4942`. -/
theorem c8_glb_bin_chunk_dispatch (buffer : List Nat) (jsonLen : Int)
    (h20 : (pySlice buffer 0 20).length = 20)
    (hmagic : toSigned 32 (bytesToNatLE (pySlice (pySlice buffer 0 20) 0 4)) = GLB_MAGIC)
    (hver : toSigned 32 (bytesToNatLE (pySlice (pySlice buffer 0 20) 4 8)) = 2)
    (hjl : toSigned 32 (bytesToNatLE (pySlice (pySlice buffer 0 20) 12 16)) = jsonLen)
    (hjsonType : toSigned 32 (bytesToNatLE (pySlice (pySlice buffer 0 20) 16 20)) =
      GLB_CHUNK_TYPE_JSON)
    (hjl0 : jsonLen ≠ 0) :
    ((pySlice buffer (20 + jsonLen) (buffer.length : Int)).length ≤ 8 →
      getChunksFromBuffer buffer = .ok (pySlice buffer 20 (20 + jsonLen), none)) ∧
      (8 < (pySlice buffer (20 + jsonLen) (buffer.length : Int)).length →
        (toSigned 32 (bytesToNatLE
              (pySlice (pySlice buffer (20 + jsonLen) (buffer.length : Int)) 4 8)) ≠
            GLB_CHUNK_TYPE_BIN →
          getChunksFromBuffer buffer = .error "Glb binary chunk header error") ∧
        (toSigned 32 (bytesToNatLE
              (pySlice (pySlice buffer (20 + jsonLen) (buffer.length : Int)) 4 8)) =
            GLB_CHUNK_TYPE_BIN →
          getChunksFromBuffer buffer = .ok (pySlice buffer 20 (20 + jsonLen),
            some (pySlice (pySlice buffer (20 + jsonLen) (buffer.length : Int)) 8
              (8 + toSigned 32 (bytesToNatLE
                (pySlice (pySlice buffer (20 + jsonLen) (buffer.length : Int)) 0 4))))))) := by
  have hbase : getChunksFromBuffer buffer =
      (if 8 < (pySlice buffer (20 + jsonLen) (buffer.length : Int)).length then
        (if toSigned 32 (bytesToNatLE
              (pySlice (pySlice buffer (20 + jsonLen) (buffer.length : Int)) 4 8)) ≠
            GLB_CHUNK_TYPE_BIN then
          (.error "Glb binary chunk header error" : Except String (List Nat × Option (List Nat)))
        else .ok (pySlice buffer 20 (20 + jsonLen),
          some (pySlice (pySlice buffer (20 + jsonLen) (buffer.length : Int)) 8
            (8 + toSigned 32 (bytesToNatLE
              (pySlice (pySlice buffer (20 + jsonLen) (buffer.length : Int)) 0 4))))))
      else .ok (pySlice buffer 20 (20 + jsonLen), none)) := by
    simp only [getChunksFromBuffer]
    rw [if_neg (show ¬(pySlice buffer 0 20).length ≠ 20 from not_ne_iff.mpr h20),
      if_neg (not_ne_iff.mpr hmagic), if_neg (not_ne_iff.mpr hver),
      if_neg (not_ne_iff.mpr hjsonType),
      if_neg (show ¬toSigned 32 (bytesToNatLE (pySlice (pySlice buffer 0 20) 12 16)) = 0
        from hjl ▸ hjl0), hjl]
  refine ⟨?_, ?_⟩
  · intro hle
    rw [hbase, if_neg (by omega)]
  · intro hgt
    refine ⟨?_, ?_⟩
    · intro hne
      rw [hbase, if_pos hgt, if_pos hne]
    · intro heq
      rw [hbase, if_pos hgt, if_neg (not_ne_iff.mpr heq)]

/-- Witness for C8: a concrete GLB with a BIN second chunk of length 3. -/
theorem c8_glb_bin_chunk_dispatch_witness :
    getChunksFromBuffer
      ([0x67, 0x6C, 0x54, 0x46] ++ [2, 0, 0, 0] ++ [0, 0, 0, 0] ++
        [4, 0, 0, 0] ++ [0x4A, 0x53, 0x4F, 0x4E] ++ [110, 117, 108, 108] ++
        [3, 0, 0, 0] ++ [0x42, 0x49, 0x4E, 0x00] ++ [5, 5, 5]) =
      .ok ([110, 117, 108, 108], some [5, 5, 5]) := by
  have h := (c8_glb_bin_chunk_dispatch
    ([0x67, 0x6C, 0x54, 0x46] ++ [2, 0, 0, 0] ++ [0, 0, 0, 0] ++
      [4, 0, 0, 0] ++ [0x4A, 0x53, 0x4F, 0x4E] ++ [110, 117, 108, 108] ++
      [3, 0, 0, 0] ++ [0x42, 0x49, 0x4E, 0x00] ++ [5, 5, 5]) 4
    (by rfl) (by rfl) (by rfl) (by rfl) (by rfl) (by decide)).2 (by decide)
  exact (h.2 (by rfl)).trans (by rfl)

/-! ## Theorems about the 3TZ index representation -/

theorem length_flatTriples (es : List (Nat × Nat × Nat)) :
    (flatTriples es).length = 3 * es.length := by
  induction es with
  | nil => rfl
  | cons e es ih =>
    simp only [flatTriples, List.flatMap_cons, List.length_append, List.length_cons,
      List.length_nil] at *
    omega

theorem indexGet_flatTriples (es : List (Nat × Nat × Nat)) (i : Nat) :
    indexGet (flatTriples es) i = es.get? i := by
  induction es generalizing i with
  | nil => simp [flatTriples, indexGet]
  | cons e es ih =>
    have hft : flatTriples (e :: es) = e.1 :: e.2.1 :: e.2.2 :: flatTriples es := by
      simp [flatTriples]
    cases i with
    | zero => simp [hft, indexGet]
    | succ i =>
      have e1 : 3 * (i + 1) = 3 * i + 1 + 1 + 1 := by ring
      have e2 : 3 * (i + 1) + 1 = 3 * i + 1 + 1 + 1 + 1 := by ring
      have e3 : 3 * (i + 1) + 2 = 3 * i + 2 + 1 + 1 + 1 := by ring
      simp only [hft, indexGet, e1, e2, e3, List.get?_cons_succ]
      have h := ih i
      simp only [indexGet] at h
      exact h

theorem md5LessThan_eq_true_iff (aLo aHi bLo bHi : Nat) :
    md5LessThan aLo aHi bLo bHi = true ↔
      (aLo < bLo ∨ (aLo = bLo ∧ aHi < bHi)) := by
  unfold md5LessThan
  split_ifs with h
  · simp [h]
  · simp [h]

theorem findLoop_found (es : List (Nat × Nat × Nat)) (a b o : Nat) (p : Nat)
    (hlt : es.Pairwise keyLt) (hple : p < es.length)
    (hpget : es.get ⟨p, hple⟩ = (a, b, o)) :
    ∀ (fuel : Nat) (low high : Int), 0 ≤ low → low ≤ (p : Int) →
      (p : Int) ≤ high → high ≤ (es.length : Int) →
      (high + 1 - low).toNat < fuel →
      findLoop a b (flatTriples es) fuel low high = .ok (some o) := by
  have hget : ∀ (i j : Fin es.length), i < j → keyLt (es.get i) (es.get j) :=
    List.pairwise_iff_get.mp hlt
  intro fuel
  induction fuel with
  | zero => intro low high _ _ _ _ hf; omega
  | succ fuel ih =>
    intro low high h0 hlp hph hhn hf
    have hlh : low ≤ high := le_trans hlp hph
    simp only [findLoop]
    rw [if_pos hlh]
    set d : Int := (high - low) / 2 with hdd
    have hmod : 2 * (d : Int) + (high - low) % 2 = high - low := by
      have := Int.ediv_add_emod (high - low) 2
      omega
    have hr0 : 0 ≤ (high - low) % 2 := Int.emod_nonneg _ (by norm_num)
    have hr2 : (high - low) % 2 < 2 := Int.emod_lt_of_pos _ (by norm_num)
    rw [if_pos (show (0 : Int) ≤ low + d by omega)]
    have hmidlt : (low + d).toNat < es.length := by omega
    simp only [indexGet_flatTriples, List.get?_eq_get hmidlt]
    by_cases heq : (es.get ⟨(low + d).toNat, hmidlt⟩).1 = a ∧
        (es.get ⟨(low + d).toNat, hmidlt⟩).2.1 = b
    · rw [if_pos heq]
      have hmp : (low + d).toNat = p := by
        rcases lt_trichotomy ((low + d).toNat) p with hc | hc | hc
        · exfalso
          have hk := hget ⟨(low + d).toNat, hmidlt⟩ ⟨p, hple⟩ (Fin.mk_lt_mk.mpr hc)
          rw [hpget] at hk
          simp only [keyLt] at hk
          obtain ⟨h1, h2⟩ := heq
          omega
        · exact hc
        · exfalso
          have hk := hget ⟨p, hple⟩ ⟨(low + d).toNat, hmidlt⟩ (Fin.mk_lt_mk.mpr hc)
          rw [hpget] at hk
          simp only [keyLt] at hk
          obtain ⟨h1, h2⟩ := heq
          omega
      have hEq : es.get ⟨(low + d).toNat, hmidlt⟩ = es.get ⟨p, hple⟩ := by
        congr 1
        exact Fin.ext hmp
      rw [hEq, hpget]
    · rw [if_neg heq]
      by_cases hml : md5LessThan (es.get ⟨(low + d).toNat, hmidlt⟩).1
          (es.get ⟨(low + d).toNat, hmidlt⟩).2.1 a b = true
      · rw [if_pos hml]
        have hkey := (md5LessThan_eq_true_iff _ _ _ _).mp hml
        have hmp : (low + d).toNat < p := by
          rcases lt_trichotomy ((low + d).toNat) p with hc | hc | hc
          · exact hc
          · exfalso
            have hEq : es.get ⟨(low + d).toNat, hmidlt⟩ = es.get ⟨p, hple⟩ := by
              congr 1
              exact Fin.ext hc
            rw [hEq, hpget] at hkey
            dsimp only at hkey
            omega
          · exfalso
            have hk := hget ⟨p, hple⟩ ⟨(low + d).toNat, hmidlt⟩ (Fin.mk_lt_mk.mpr hc)
            rw [hpget] at hk
            simp only [keyLt] at hk
            omega
        exact ih (low + d + 1) high (by omega) (by omega) hph hhn (by omega)
      · rw [if_neg hml]
        have hnkey := mt (md5LessThan_eq_true_iff _ _ _ _).mpr hml
        have hkey : a < (es.get ⟨(low + d).toNat, hmidlt⟩).1 ∨
            (a = (es.get ⟨(low + d).toNat, hmidlt⟩).1 ∧
              b < (es.get ⟨(low + d).toNat, hmidlt⟩).2.1) := by
          omega
        have hmp : p < (low + d).toNat := by
          rcases lt_trichotomy p ((low + d).toNat) with hc | hc | hc
          · exact hc
          · exfalso
            have hEq : es.get ⟨(low + d).toNat, hmidlt⟩ = es.get ⟨p, hple⟩ := by
              congr 1
              exact Fin.ext hc.symm
            rw [hEq, hpget] at hkey
            dsimp only at hkey
            omega
          · exfalso
            have hk := hget ⟨(low + d).toNat, hmidlt⟩ ⟨p, hple⟩ (Fin.mk_lt_mk.mpr hc)
            rw [hpget] at hk
            simp only [keyLt] at hk
            omega
        exact ih low (low + d - 1) h0 hlp (by omega) (by omega) (by omega)

theorem buildIndexEntries_ok (md5h : String → Nat × Nat) (items : List ZipItem)
    (hok : ∀ i ∈ items, checkIfSupportedZipItem i = .ok ()) :
    buildIndexEntries md5h items = .ok (indexEntriesOf md5h items) := by
  induction items with
  | nil => rfl
  | cons item rest ih =>
    have h1 := hok item (List.mem_cons_self item rest)
    have h2 := ih (fun i hi => hok i (List.mem_cons_of_mem item hi))
    simp only [buildIndexEntries, h1, h2]
    by_cases hacc : acceptedItem item
    · simp [hacc, indexEntriesOf, List.filter_cons, itemEntry]
    · simp [hacc, indexEntriesOf, List.filter_cons]

theorem mapM_packIndexEntry (es : List (Nat × Nat × Nat))
    (hb : ∀ e ∈ es, e.1 < 2 ^ 64 ∧ e.2.1 < 2 ^ 64 ∧ e.2.2 < 2 ^ 64) :
    es.mapM packIndexEntry = .ok (es.map packedEntryBytes) := by
  induction es with
  | nil => rfl
  | cons e es ih =>
    rw [List.mapM_cons]
    have hpe : packIndexEntry e = .ok (packedEntryBytes e) := by
      unfold packIndexEntry packedEntryBytes
      rw [if_pos (hb e (List.mem_cons_self e es))]
    rw [hpe, ih (fun u hu => hb u (List.mem_cons_of_mem e hu))]
    rfl

theorem length_packedEntryBytes (e : Nat × Nat × Nat) :
    (packedEntryBytes e).length = 24 := by
  simp [packedEntryBytes, length_natToBytesLE]

theorem length_packed_flatten (es : List (Nat × Nat × Nat)) :
    ((es.map packedEntryBytes).flatten).length = 24 * es.length := by
  induction es with
  | nil => rfl
  | cons e es ih =>
    simp only [List.map_cons, List.flatten_cons, List.length_append, ih,
      length_packedEntryBytes, List.length_cons]
    ring

theorem leWords_packed (es : List (Nat × Nat × Nat))
    (hb : ∀ e ∈ es, e.1 < 2 ^ 64 ∧ e.2.1 < 2 ^ 64 ∧ e.2.2 < 2 ^ 64) :
    leWords 8 ((es.map packedEntryBytes).flatten) = flatTriples es := by
  induction es with
  | nil => simp [flatTriples, leWords_nil]
  | cons e es ih =>
    obtain ⟨hb1, hb2, hb3⟩ := hb e (List.mem_cons_self e es)
    simp only [List.map_cons, List.flatten_cons]
    rw [packedEntryBytes, List.append_assoc, List.append_assoc]
    rw [leWords_cons 8 _ _ (length_natToBytesLE 8 _) (by norm_num),
      leWords_cons 8 _ _ (length_natToBytesLE 8 _) (by norm_num),
      leWords_cons 8 _ _ (length_natToBytesLE 8 _) (by norm_num)]
    rw [bytesToNatLE_natToBytesLE 8 _ (by norm_num at hb1 ⊢; omega),
      bytesToNatLE_natToBytesLE 8 _ (by norm_num at hb2 ⊢; omega),
      bytesToNatLE_natToBytesLE 8 _ (by norm_num at hb3 ⊢; omega)]
    rw [ih (fun u hu => hb u (List.mem_cons_of_mem e hu))]
    simp [flatTriples]

theorem pairwise_keyLt_of_sorted (es : List (Nat × Nat × Nat))
    (hs : List.Sorted keyLe es)
    (hd : es.Pairwise (fun x y => (x.1, x.2.1) ≠ (y.1, y.2.1))) :
    es.Pairwise keyLt := by
  have hand := List.Pairwise.and hs hd
  exact hand.imp (fun {x y} h => by
    obtain ⟨hle, hne⟩ := h
    unfold keyLe at hle
    unfold keyLt
    rw [ne_eq, Prod.mk.injEq] at hne
    omega)

/-! ## Theorems for claim C3: binary-search totality -/

/-- Claim C3 fails on the code: on a well-formed sorted one-entry index,
looking up a path whose digest compares above the entry drives `low` to
`len(index)` and the loop then reads `index[1]`, raising `IndexError`
instead of returning `None`.  (The digest function is the model parameter;
here it returns `(5, 0)` while the single entry has digest `(0, 0)`.) -/
theorem c3_search_overrun :
    findLocalFileHeaderOffsetInIndex (fun _ => (5, 0)) [0, 0, 42] "0/0/0/0.glb" =
      .error "IndexError" := by
  rfl

/-! ## Theorems for claim C1: index round-trip -/

/-- Claim C1: for a plain ZIP whose every entry passes validation, whose
digests and offsets fit 64 bits, and whose accepted entries have pairwise
distinct MD5 digests, every accepted (non-directory, non-index) filename
looks up through `readIndex` and `findLocalFileHeaderOffsetInIndex` to
exactly its central-directory header offset. -/
theorem c1_buildIndex_lookup_roundtrip
    (md5h : String → Nat × Nat) (items : List ZipItem) (item : ZipItem)
    (hok : ∀ i ∈ items, checkIfSupportedZipItem i = .ok ())
    (hbound : ∀ i ∈ items, (md5h i.filename).1 < 2 ^ 64 ∧
      (md5h i.filename).2 < 2 ^ 64 ∧ i.header_offset < 2 ^ 64)
    (hdist : ((items.filter acceptedItem).map
      (fun i => md5h i.filename)).Pairwise (· ≠ ·))
    (hmem : item ∈ items) (hacc : acceptedItem item = true) :
    ∃ blob words, buildIndex md5h items = .ok blob ∧ readIndex blob = .ok words ∧
      findLocalFileHeaderOffsetInIndex md5h words item.filename =
        .ok (some item.header_offset) := by
  have hentries := buildIndexEntries_ok md5h items hok
  set entries := indexEntriesOf md5h items with hE
  set sorted := List.insertionSort keyLe entries with hS
  have hperm : sorted.Perm entries := List.perm_insertionSort keyLe entries
  have hsortedLe : List.Sorted keyLe sorted := List.sorted_insertionSort keyLe entries
  have hboundS : ∀ e ∈ sorted, e.1 < 2 ^ 64 ∧ e.2.1 < 2 ^ 64 ∧ e.2.2 < 2 ^ 64 := by
    intro e he
    have heE : e ∈ entries := hperm.mem_iff.mp he
    obtain ⟨i, hiF, hie⟩ := List.mem_map.mp heE
    have hiI : i ∈ items := List.mem_of_mem_filter hiF
    obtain ⟨b1, b2, b3⟩ := hbound i hiI
    rw [← hie]
    exact ⟨b1, b2, b3⟩
  have hpack := mapM_packIndexEntry sorted hboundS
  have hbuild : buildIndex md5h items =
      .ok ((sorted.map packedEntryBytes).flatten) := by
    unfold buildIndex
    simp only [hentries, ← hS, hpack]
  have hlenb : ((sorted.map packedEntryBytes).flatten).length % 8 = 0 := by
    rw [length_packed_flatten]
    omega
  have hread : readIndex ((sorted.map packedEntryBytes).flatten) =
      .ok (flatTriples sorted) := by
    unfold readIndex
    rw [if_pos hlenb, leWords_packed sorted hboundS]
  -- the looked-up entry is in the sorted index
  have hmemE : itemEntry md5h item ∈ entries := by
    rw [hE]
    exact List.mem_map_of_mem _ (List.mem_filter.mpr ⟨hmem, hacc⟩)
  have hmemS : itemEntry md5h item ∈ sorted := hperm.mem_iff.mpr hmemE
  -- distinct keys carry over to the sorted index
  have hdE : entries.Pairwise (fun x y => (x.1, x.2.1) ≠ (y.1, y.2.1)) := by
    rw [hE]
    unfold indexEntriesOf
    rw [List.pairwise_map]
    rw [List.pairwise_map] at hdist
    exact hdist.imp (fun {a c} hne heq => hne (by
      simp only [itemEntry] at heq
      rw [Prod.mk.injEq] at heq
      exact Prod.ext heq.1 heq.2))
  have hdS : sorted.Pairwise (fun x y => (x.1, x.2.1) ≠ (y.1, y.2.1)) :=
    (hperm.pairwise_iff (fun {x y} h => Ne.symm h)).mpr hdE
  have hLt : sorted.Pairwise keyLt := pairwise_keyLt_of_sorted sorted hsortedLe hdS
  obtain ⟨p, hp⟩ := List.mem_iff_get?.mp hmemS
  obtain ⟨hple, hpget⟩ := List.get?_eq_some.mp hp
  refine ⟨_, _, hbuild, hread, ?_⟩
  simp only [findLocalFileHeaderOffsetInIndex]
  have hlenw : indexLen (flatTriples sorted) = sorted.length := by
    unfold indexLen
    rw [length_flatTriples]
    omega
  rw [hlenw]
  exact findLoop_found sorted (md5h item.filename).1 (md5h item.filename).2
    item.header_offset p hLt hple (by rw [hpget]; rfl) (sorted.length + 2) 0
    (sorted.length : Int) (by omega) (by omega) (by omega) (by omega) (by omega)

/-- Witness for C1: a two-file ZIP with an injective digest model; looking
up the first file returns its header offset 5. -/
theorem c1_buildIndex_lookup_roundtrip_witness :
    (∀ i ∈ [(⟨"a", 0, 0, 1, 1, 5⟩ : ZipItem), ⟨"bb", 0, 0, 1, 1, 40⟩],
      checkIfSupportedZipItem i = .ok ()) ∧
      ∃ blob words,
        buildIndex (fun s => (s.length, 0))
            [(⟨"a", 0, 0, 1, 1, 5⟩ : ZipItem), ⟨"bb", 0, 0, 1, 1, 40⟩] = .ok blob ∧
          readIndex blob = .ok words ∧
          findLocalFileHeaderOffsetInIndex (fun s => (s.length, 0)) words "a" =
            .ok (some 5) :=
  ⟨by decide,
    c1_buildIndex_lookup_roundtrip (fun s => (s.length, 0))
      [⟨"a", 0, 0, 1, 1, 5⟩, ⟨"bb", 0, 0, 1, 1, 40⟩] ⟨"a", 0, 0, 1, 1, 5⟩
      (by decide) (by decide) (by decide) (by decide) (by decide)⟩

/-! ## Theorems for claim C10: validation precedes the index filter -/

theorem buildIndexEntries_error (md5h : String → Nat × Nat) (items : List ZipItem)
    (hbad : ∃ i ∈ items, ∃ e, checkIfSupportedZipItem i = .error e) :
    ∃ e, buildIndexEntries md5h items = .error e := by
  induction items with
  | nil =>
    obtain ⟨i, hi, _⟩ := hbad
    simp at hi
  | cons it rest ih =>
    obtain ⟨i, hi, e, he⟩ := hbad
    by_cases hhead : ∃ e0, checkIfSupportedZipItem it = .error e0
    · obtain ⟨e0, he0⟩ := hhead
      exact ⟨e0, by simp only [buildIndexEntries, he0]⟩
    · have hokh : checkIfSupportedZipItem it = .ok () := by
        cases hcheck : checkIfSupportedZipItem it with
        | error e1 => exact absurd ⟨e1, hcheck⟩ hhead
        | ok u => cases u; rfl
      have htail : ∃ i ∈ rest, ∃ e, checkIfSupportedZipItem i = .error e := by
        rcases List.mem_cons.mp hi with hh | hh
        · subst hh; exact absurd ⟨e, he⟩ hhead
        · exact ⟨i, hh, e, he⟩
      obtain ⟨e1, he1⟩ := ih htail
      exact ⟨e1, by simp only [buildIndexEntries, hokh, he1]⟩

/-- Claim C10: `buildIndex` validates every central-directory entry —
directories and a pre-existing `@3dtilesIndex1@` included, since the check
runs before the filter — so a single invalid entry anywhere makes the
whole build fail. -/
theorem c10_buildIndex_validates_all (md5h : String → Nat × Nat)
    (items : List ZipItem)
    (hbad : ∃ i ∈ items, ∃ e, checkIfSupportedZipItem i = .error e) :
    ∃ e, buildIndex md5h items = .error e := by
  obtain ⟨e, he⟩ := buildIndexEntries_error md5h items hbad
  exact ⟨e, by unfold buildIndex; simp only [he]⟩

/-- Witness for C10: a ZIP whose only entry is a directory with an invalid
compression method; the directory filter never sees it because the build
fails first. -/
theorem c10_buildIndex_validates_all_witness :
    checkIfSupportedZipItem ⟨"d/", 0, 99, 0, 0, 0⟩ = .error "Bad compression type" ∧
      ∃ e, buildIndex (fun _ => (0, 0)) [(⟨"d/", 0, 99, 0, 0, 0⟩ : ZipItem)] =
        .error e :=
  ⟨rfl, c10_buildIndex_validates_all (fun _ => (0, 0)) [⟨"d/", 0, 99, 0, 0, 0⟩]
    ⟨⟨"d/", 0, 99, 0, 0, 0⟩, by simp, "Bad compression type", rfl⟩⟩

/-! ## Theorems about the glTF property decoder -/

theorem exc_bind_ok (a : α) (f : α → Except String β) :
    (Except.ok a >>= f) = f a := rfl

theorem exc_bind_error (e : String) (f : α → Except String β) :
    ((Except.error e : Except String α) >>= f) = Except.error e := rfl

theorem exc_pure (a : α) : (pure a : Except String α) = Except.ok a := rfl

theorem require_some (a : α) (msg : String) : require (some a) msg = .ok a := rfl

theorem require_none (msg : String) : require (none : Option α) msg = .error msg := rfl

theorem exc_bind_ok_some (r : Except String α) :
    (r >>= fun v => Except.ok (some v)) = r.map Option.some := by
  cases r <;> rfl

theorem exc_bind_pure_some (r : Except String α) :
    (r >>= fun v => (pure (some v) : Except String (Option α))) = r.map Option.some := by
  cases r <;> rfl

set_option maxHeartbeats 3200000 in
/-- Claim C2 (amended): for every non-array numeric property the decoder
returns the raw decoded values with no normalize or offset/scale
transform, regardless of the `offset`, `scale` and `normalized` schema
fields (unconstrained here): in the structural-metadata mode a SCALAR
property returns the raw `readScalarValues` result and a VEC2/VEC3/VEC4/
MAT2/MAT3/MAT4 property the raw grouped `readFixedSizeArrayValues`
result, and in either extension generation the direct
INT32/UINT32/UINT8/FLOAT32 branches return the raw scalar values. -/
theorem c2_nonarray_numeric_no_transform
    (doc : GltfModel) (featureTable : FeatureTable) (propName : String) :
    (∀ (propRef : PropertyRef) (classDef : ClassDef) (classProp : ClassProperty)
      (bvIdx : Nat) (bv : BufferView) (buffer : List Nat) (componentType : String),
      doc.mode = Mode.EXT_STRUCTURAL_METADATA →
      dictGet featureTable.properties propName = some propRef →
      propRef.values = some bvIdx →
      dictGet doc.classes featureTable.className = some classDef →
      dictGet classDef.properties propName = some classProp →
      classProp.type = some "SCALAR" →
      classProp.array ≠ some true →
      classProp.componentType = some componentType →
      doc.bufferViews.get? bvIdx = some bv →
      doc.buffers.get? bv.buffer = some buffer →
      getFeatureTablePropertyValues doc featureTable propName =
        (readScalarValues componentType featureTable.count
          (pySlice buffer ((bv.byteOffset.getD 0 : Nat) : Int)
            (((bv.byteOffset.getD 0 : Nat) : Int) + (bv.byteLength : Int)))).map
          Option.some) ∧
    (∀ (propRef : PropertyRef) (classDef : ClassDef) (classProp : ClassProperty)
      (bvIdx : Nat) (bv : BufferView) (buffer : List Nat)
      (componentType propType : String),
      doc.mode = Mode.EXT_STRUCTURAL_METADATA →
      dictGet featureTable.properties propName = some propRef →
      propRef.values = some bvIdx →
      dictGet doc.classes featureTable.className = some classDef →
      dictGet classDef.properties propName = some classProp →
      classProp.type = some propType →
      propType ∈ ["VEC2", "VEC3", "VEC4", "MAT2", "MAT3", "MAT4"] →
      classProp.array ≠ some true →
      classProp.componentType = some componentType →
      doc.bufferViews.get? bvIdx = some bv →
      doc.buffers.get? bv.buffer = some buffer →
      getFeatureTablePropertyValues doc featureTable propName =
        (readFixedSizeArrayValues componentType featureTable.count
          (getComponentCount propType)
          (pySlice buffer ((bv.byteOffset.getD 0 : Nat) : Int)
            (((bv.byteOffset.getD 0 : Nat) : Int) + (bv.byteLength : Int)))).map
          Option.some) ∧
    (∀ (propRef : PropertyRef) (classDef : ClassDef) (classProp : ClassProperty)
      (bvIdx : Nat) (bv : BufferView) (buffer : List Nat) (propType : String)
      (o : Nat),
      doc.mode ≠ Mode.UNKNOWN →
      dictGet featureTable.properties propName = some propRef →
      (if doc.mode = Mode.EXT_FEATURE_METADATA then propRef.bufferView
        else propRef.values) = some bvIdx →
      dictGet doc.classes featureTable.className = some classDef →
      dictGet classDef.properties propName = some classProp →
      classProp.type = some propType →
      propType ∈ ["INT32", "UINT32", "UINT8", "FLOAT32"] →
      ¬(doc.mode = Mode.EXT_STRUCTURAL_METADATA ∧ classProp.array = some true) →
      doc.bufferViews.get? bvIdx = some bv →
      doc.buffers.get? bv.buffer = some buffer →
      bv.byteOffset = some o →
      getFeatureTablePropertyValues doc featureTable propName =
        (readScalarValues propType featureTable.count
          (pySlice buffer ((o : Nat) : Int)
            (((o : Nat) : Int) + (bv.byteLength : Int)))).map Option.some) := by
  refine ⟨?_, ?_, ?_⟩
  · intro propRef classDef classProp bvIdx bv buffer componentType hmode hprop
      hvals hclass hcp htype harr hct hbv hbuf
    rw [List.get?_eq_getElem?] at hbv hbuf
    simp [getFeatureTablePropertyValues, hprop, hmode, hvals, hclass, hcp, htype,
      hct, hbv, hbuf, harr, require_some, exc_bind_ok, exc_pure, exc_bind_ok_some,
      exc_bind_pure_some]
  · intro propRef classDef classProp bvIdx bv buffer componentType propType hmode
      hprop hvals hclass hcp htype hmem harr hct hbv hbuf
    rw [List.get?_eq_getElem?] at hbv hbuf
    fin_cases hmem <;>
      simp [getFeatureTablePropertyValues, hprop, hmode, hvals, hclass, hcp,
        htype, hct, hbv, hbuf, harr, getComponentCount, require_some, exc_bind_ok,
        exc_pure, exc_bind_ok_some, exc_bind_pure_some]
  · intro propRef classDef classProp bvIdx bv buffer propType o hmodeNe hprop
      hbvkey hclass hcp htype hmem harrNew hbv hbuf hoff
    rw [List.get?_eq_getElem?] at hbv hbuf
    rcases hm : doc.mode with _ | _ | _
    · exact absurd hm hmodeNe
    · rw [hm] at hbvkey harrNew
      simp at hbvkey
      fin_cases hmem <;>
        simp [getFeatureTablePropertyValues, hm, hprop, hbvkey, hclass, hcp,
          htype, hbv, hbuf, hoff, require_some, exc_bind_ok, exc_pure,
          exc_bind_ok_some, exc_bind_pure_some]
    · rw [hm] at hbvkey harrNew
      simp at hbvkey
      have harr2 : ¬(classProp.array = some true) := fun hc => harrNew ⟨rfl, hc⟩
      fin_cases hmem <;>
        simp [getFeatureTablePropertyValues, hm, hprop, hbvkey, hclass, hcp,
          htype, hbv, hbuf, hoff, harr2, require_some, exc_bind_ok, exc_pure,
          exc_bind_ok_some, exc_bind_pure_some]

/-- Claim C2 fails as stated: decoding the FLOAT32 SCALAR property of the
claim's concrete example (elementCount 4, values 1.0..4.0, offset 10,
scale 2) yields the raw values [1.0, 2.0, 3.0, 4.0]; the scalar path never
applies `applyOffsetScale`, so the predicted [12.0, 14.0, 16.0, 18.0] is
not produced. -/
theorem c2_scalar_transform_counterexample :
    getFeatureTablePropertyValues
        { mode := Mode.EXT_STRUCTURAL_METADATA,
          bufferViews := [{ buffer := 0, byteOffset := some 0, byteLength := 16 }],
          buffers := [[0x00, 0x00, 0x80, 0x3F, 0x00, 0x00, 0x00, 0x40,
            0x00, 0x00, 0x40, 0x40, 0x00, 0x00, 0x80, 0x40]],
          classes := [("c", { properties := [("height",
            { type := some "SCALAR", componentType := some "FLOAT32",
              array := none, count := none, componentCount := none,
              enumType := none, normalized := none,
              offset := some 10, scale := some 2 })] })],
          enums := [] }
        { className := "c", count := 4,
          properties := [("height",
            { bufferView := none, values := some 0,
              stringOffsetBufferView := none, stringOffsets := none,
              arrayOffsets := none, arrayOffsetType := none,
              stringOffsetType := none, offsetType := none })] }
        "height" =
      .ok (some [PValue.rat 1, PValue.rat 2, PValue.rat 3, PValue.rat 4]) ∧
      [PValue.rat 1, PValue.rat 2, PValue.rat 3, PValue.rat 4] ≠
        [PValue.rat 12, PValue.rat 14, PValue.rat 16, PValue.rat 18] := by
  constructor
  · have h0 : getFeatureTablePropertyValues
        { mode := Mode.EXT_STRUCTURAL_METADATA,
          bufferViews := [{ buffer := 0, byteOffset := some 0, byteLength := 16 }],
          buffers := [[0x00, 0x00, 0x80, 0x3F, 0x00, 0x00, 0x00, 0x40,
            0x00, 0x00, 0x40, 0x40, 0x00, 0x00, 0x80, 0x40]],
          classes := [("c", { properties := [("height",
            { type := some "SCALAR", componentType := some "FLOAT32",
              array := none, count := none, componentCount := none,
              enumType := none, normalized := none,
              offset := some 10, scale := some 2 })] })],
          enums := [] }
        { className := "c", count := 4,
          properties := [("height",
            { bufferView := none, values := some 0,
              stringOffsetBufferView := none, stringOffsets := none,
              arrayOffsets := none, arrayOffsetType := none,
              stringOffsetType := none, offsetType := none })] }
        "height" =
        .ok (some [decodeFloat32 0x3F800000, decodeFloat32 0x40000000,
          decodeFloat32 0x40400000, decodeFloat32 0x40800000]) := rfl
    rw [h0]
    have hf1 : decodeFloat32 0x3F800000 = PValue.rat 1 := by
      norm_num [decodeFloat32, qPow2, show ((23 : Int).toNat = 23) from rfl,
        show ((22 : Int).toNat = 22) from rfl, show ((21 : Int).toNat = 21) from rfl]
    have hf2 : decodeFloat32 0x40000000 = PValue.rat 2 := by
      norm_num [decodeFloat32, qPow2, show ((23 : Int).toNat = 23) from rfl,
        show ((22 : Int).toNat = 22) from rfl, show ((21 : Int).toNat = 21) from rfl]
    have hf3 : decodeFloat32 0x40400000 = PValue.rat 3 := by
      norm_num [decodeFloat32, qPow2, show ((23 : Int).toNat = 23) from rfl,
        show ((22 : Int).toNat = 22) from rfl, show ((21 : Int).toNat = 21) from rfl]
    have hf4 : decodeFloat32 0x40800000 = PValue.rat 4 := by
      norm_num [decodeFloat32, qPow2, show ((23 : Int).toNat = 23) from rfl,
        show ((22 : Int).toNat = 22) from rfl, show ((21 : Int).toNat = 21) from rfl]
    rw [hf1, hf2, hf3, hf4]
  · intro h
    injection h with h1 _
    injection h1 with hq
    norm_num at hq

/-- Witness for C2 at the claim's concrete FLOAT32 example: the result is
the raw scalar read, independent of the offset/scale/normalized fields. -/
theorem c2_nonarray_numeric_no_transform_witness :
    dictGet [("height",
        ({ bufferView := none, values := some 0,
           stringOffsetBufferView := none, stringOffsets := none,
           arrayOffsets := none, arrayOffsetType := none,
           stringOffsetType := none, offsetType := none } : PropertyRef))]
        "height" = some
        { bufferView := none, values := some 0,
          stringOffsetBufferView := none, stringOffsets := none,
          arrayOffsets := none, arrayOffsetType := none,
          stringOffsetType := none, offsetType := none } ∧
      getFeatureTablePropertyValues
        { mode := Mode.EXT_STRUCTURAL_METADATA,
          bufferViews := [{ buffer := 0, byteOffset := some 0, byteLength := 16 }],
          buffers := [[0x00, 0x00, 0x80, 0x3F, 0x00, 0x00, 0x00, 0x40,
            0x00, 0x00, 0x40, 0x40, 0x00, 0x00, 0x80, 0x40]],
          classes := [("c", { properties := [("height",
            { type := some "SCALAR", componentType := some "FLOAT32",
              array := none, count := none, componentCount := none,
              enumType := none, normalized := none,
              offset := some 10, scale := some 2 })] })],
          enums := [] }
        { className := "c", count := 4,
          properties := [("height",
            { bufferView := none, values := some 0,
              stringOffsetBufferView := none, stringOffsets := none,
              arrayOffsets := none, arrayOffsetType := none,
              stringOffsetType := none, offsetType := none })] }
        "height" =
      (readScalarValues "FLOAT32" 4
        (pySlice [0x00, 0x00, 0x80, 0x3F, 0x00, 0x00, 0x00, 0x40,
          0x00, 0x00, 0x40, 0x40, 0x00, 0x00, 0x80, 0x40] ((0 : Nat) : Int)
          (((0 : Nat) : Int) + (16 : Int)))).map Option.some :=
  ⟨rfl, by
    have h := (c2_nonarray_numeric_no_transform
      { mode := Mode.EXT_STRUCTURAL_METADATA,
        bufferViews := [{ buffer := 0, byteOffset := some 0, byteLength := 16 }],
        buffers := [[0x00, 0x00, 0x80, 0x3F, 0x00, 0x00, 0x00, 0x40,
          0x00, 0x00, 0x40, 0x40, 0x00, 0x00, 0x80, 0x40]],
        classes := [("c", { properties := [("height",
          { type := some "SCALAR", componentType := some "FLOAT32",
            array := none, count := none, componentCount := none,
            enumType := none, normalized := none,
            offset := some 10, scale := some 2 })] })],
        enums := [] }
      { className := "c", count := 4,
        properties := [("height",
          { bufferView := none, values := some 0,
            stringOffsetBufferView := none, stringOffsets := none,
            arrayOffsets := none, arrayOffsetType := none,
            stringOffsetType := none, offsetType := none })] }
      "height").1 _ _ _ 0 _ _ "FLOAT32" rfl rfl rfl rfl rfl rfl (by decide) rfl rfl rfl
    exact h⟩

/-- Claim C6: a non-array BOOLEAN property reads `⌈elementCount/8⌉` bytes
from the values buffer view (the slice must supply exactly that many
bytes, or `struct.unpack` fails) and value `i` is bit
`(byte[i/8] >> (i%8)) & 1`, LSB-first within each byte. -/
theorem c6_boolean_scalar_decode
    (doc : GltfModel) (featureTable : FeatureTable) (propName : String)
    (propRef : PropertyRef) (classDef : ClassDef) (classProp : ClassProperty)
    (bvIdx : Nat) (bv : BufferView) (buffer : List Nat) (o : Nat)
    (hmodeNe : doc.mode ≠ Mode.UNKNOWN)
    (hprop : dictGet featureTable.properties propName = some propRef)
    (hbvkey : (if doc.mode = Mode.EXT_FEATURE_METADATA then propRef.bufferView
      else propRef.values) = some bvIdx)
    (hclass : dictGet doc.classes featureTable.className = some classDef)
    (hcp : dictGet classDef.properties propName = some classProp)
    (htype : classProp.type = some "BOOLEAN")
    (harrNew : ¬(doc.mode = Mode.EXT_STRUCTURAL_METADATA ∧
      classProp.array = some true))
    (hbv : doc.bufferViews.get? bvIdx = some bv)
    (hbuf : doc.buffers.get? bv.buffer = some buffer)
    (hoff : bv.byteOffset = some o)
    (hread : (pySlice buffer ((o : Nat) : Int)
      (((o : Nat) : Int) + ((min ((featureTable.count + 7) / 8) bv.byteLength : Nat) : Int))).length =
      (featureTable.count + 7) / 8) :
    getFeatureTablePropertyValues doc featureTable propName =
      .ok (some ((List.range featureTable.count).map (fun i =>
        PValue.bool ((((pySlice buffer ((o : Nat) : Int)
          (((o : Nat) : Int) + ((min ((featureTable.count + 7) / 8) bv.byteLength : Nat) : Int))).getD
            (i / 8) 0 >>> (i % 8)) &&& 1) = 1)))) := by
  rw [List.get?_eq_getElem?] at hbv hbuf
  rcases hm : doc.mode with _ | _ | _
  · exact absurd hm hmodeNe
  · rw [hm] at hbvkey harrNew
    simp at hbvkey
    simp at hread
    simp [getFeatureTablePropertyValues, hm, hprop, hbvkey, hclass, hcp, htype,
      hbv, hbuf, hoff, hread, require_some, exc_bind_ok, exc_pure]
  · rw [hm] at hbvkey harrNew
    simp at hbvkey
    simp at hread
    have harr2 : ¬(classProp.array = some true) := fun hc => harrNew ⟨rfl, hc⟩
    simp [getFeatureTablePropertyValues, hm, hprop, hbvkey, hclass, hcp, htype,
      hbv, hbuf, hoff, hread, harr2, require_some, exc_bind_ok, exc_pure]

/-- Witness for C6 at the claim's concrete input: elementCount 10 with
bytes `[0xA5, 0x02]` decodes to
[true,false,true,false,false,true,false,true,false,true]. -/
theorem c6_boolean_scalar_decode_witness :
    (pySlice [0xA5, 0x02] ((0 : Nat) : Int)
        (((0 : Nat) : Int) + ((min ((10 + 7) / 8) 2 : Nat) : Int))).length =
        (10 + 7) / 8 ∧
      getFeatureTablePropertyValues
        { mode := Mode.EXT_STRUCTURAL_METADATA,
          bufferViews := [{ buffer := 0, byteOffset := some 0, byteLength := 2 }],
          buffers := [[0xA5, 0x02]],
          classes := [("c", { properties := [("flags",
            { type := some "BOOLEAN", componentType := none, array := none,
              count := none, componentCount := none, enumType := none,
              normalized := none, offset := none, scale := none })] })],
          enums := [] }
        { className := "c", count := 10,
          properties := [("flags",
            { bufferView := none, values := some 0,
              stringOffsetBufferView := none, stringOffsets := none,
              arrayOffsets := none, arrayOffsetType := none,
              stringOffsetType := none, offsetType := none })] }
        "flags" =
      .ok (some [PValue.bool true, PValue.bool false, PValue.bool true,
        PValue.bool false, PValue.bool false, PValue.bool true,
        PValue.bool false, PValue.bool true, PValue.bool false,
        PValue.bool true]) :=
  ⟨by decide, by
    have h := c6_boolean_scalar_decode
      { mode := Mode.EXT_STRUCTURAL_METADATA,
        bufferViews := [{ buffer := 0, byteOffset := some 0, byteLength := 2 }],
        buffers := [[0xA5, 0x02]],
        classes := [("c", { properties := [("flags",
          { type := some "BOOLEAN", componentType := none, array := none,
            count := none, componentCount := none, enumType := none,
            normalized := none, offset := none, scale := none })] })],
        enums := [] }
      { className := "c", count := 10,
        properties := [("flags",
          { bufferView := none, values := some 0,
            stringOffsetBufferView := none, stringOffsets := none,
            arrayOffsets := none, arrayOffsetType := none,
            stringOffsetType := none, offsetType := none })] }
      "flags" _ _ _ 0 _ _ 0 (by decide) rfl rfl rfl rfl rfl (by decide) rfl rfl
      rfl (by decide)
    exact h.trans (by rfl)⟩

theorem readScalarValues_zero (componentType : String)
    (h : componentType ∈ ["UINT8", "INT8", "UINT16", "INT16", "UINT32", "INT32",
      "UINT64", "INT64", "FLOAT32", "FLOAT64"]) :
    readScalarValues componentType 0 [] = .ok [] := by
  fin_cases h <;> rfl

theorem pySlice_same (l : List Nat) (x : Int) : pySlice l x x = [] := by
  simp only [pySlice]
  apply List.drop_eq_nil_of_le
  exact List.length_take_le _ _

/-- Claim C7 fails as stated: a structural-mode UINT32 SCALAR property
with elementCount 0 but a 4-byte values buffer view raises `struct.error`
(unpacking zero items demands an empty buffer), rather than returning the
empty sequence regardless of the view's byteLength. -/
theorem c7_empty_table_counterexample :
    getFeatureTablePropertyValues
      { mode := Mode.EXT_STRUCTURAL_METADATA,
        bufferViews := [{ buffer := 0, byteOffset := some 0, byteLength := 4 }],
        buffers := [[1, 2, 3, 4]],
        classes := [("c", { properties := [("p",
          { type := some "SCALAR", componentType := some "UINT32",
            array := none, count := none, componentCount := none,
            enumType := none, normalized := none, offset := none,
            scale := none })] })],
        enums := [] }
      { className := "c", count := 0,
        properties := [("p",
          { bufferView := none, values := some 0,
            stringOffsetBufferView := none, stringOffsets := none,
            arrayOffsets := none, arrayOffsetType := none,
            stringOffsetType := none, offsetType := none })] }
      "p" = .error "struct.error" := by
  rfl

/-- Claim C7 (amended): with elementCount 0, decoding reads no values —
a structural-mode numeric SCALAR property returns the empty sequence
provided the sliced values data is empty (a non-empty slice is a
`struct.error`), and a non-array BOOLEAN property returns the empty
sequence regardless of the buffer view's byteLength, since it reads
`min(0, byteLength) = 0` bytes. -/
theorem c7_element_count_zero (doc : GltfModel) (featureTable : FeatureTable)
    (propName : String) (hcount : featureTable.count = 0) :
    (∀ (propRef : PropertyRef) (classDef : ClassDef) (classProp : ClassProperty)
      (bvIdx : Nat) (bv : BufferView) (buffer : List Nat) (componentType : String),
      doc.mode = Mode.EXT_STRUCTURAL_METADATA →
      dictGet featureTable.properties propName = some propRef →
      propRef.values = some bvIdx →
      dictGet doc.classes featureTable.className = some classDef →
      dictGet classDef.properties propName = some classProp →
      classProp.type = some "SCALAR" →
      classProp.array ≠ some true →
      classProp.componentType = some componentType →
      componentType ∈ ["UINT8", "INT8", "UINT16", "INT16", "UINT32", "INT32",
        "UINT64", "INT64", "FLOAT32", "FLOAT64"] →
      doc.bufferViews.get? bvIdx = some bv →
      doc.buffers.get? bv.buffer = some buffer →
      (pySlice buffer ((bv.byteOffset.getD 0 : Nat) : Int)
        (((bv.byteOffset.getD 0 : Nat) : Int) + (bv.byteLength : Int))).length = 0 →
      getFeatureTablePropertyValues doc featureTable propName = .ok (some [])) ∧
    (∀ (propRef : PropertyRef) (classDef : ClassDef) (classProp : ClassProperty)
      (bvIdx : Nat) (bv : BufferView) (buffer : List Nat) (o : Nat),
      doc.mode ≠ Mode.UNKNOWN →
      dictGet featureTable.properties propName = some propRef →
      (if doc.mode = Mode.EXT_FEATURE_METADATA then propRef.bufferView
        else propRef.values) = some bvIdx →
      dictGet doc.classes featureTable.className = some classDef →
      dictGet classDef.properties propName = some classProp →
      classProp.type = some "BOOLEAN" →
      ¬(doc.mode = Mode.EXT_STRUCTURAL_METADATA ∧ classProp.array = some true) →
      doc.bufferViews.get? bvIdx = some bv →
      doc.buffers.get? bv.buffer = some buffer →
      bv.byteOffset = some o →
      getFeatureTablePropertyValues doc featureTable propName = .ok (some [])) := by
  constructor
  · intro propRef classDef classProp bvIdx bv buffer componentType hmode hprop
      hvals hclass hcp htype harr hct hvalid hbv hbuf hslice
    rw [List.get?_eq_getElem?] at hbv hbuf
    have hdata : pySlice buffer ((bv.byteOffset.getD 0 : Nat) : Int)
        (((bv.byteOffset.getD 0 : Nat) : Int) + (bv.byteLength : Int)) = [] :=
      List.length_eq_zero.mp hslice
    have hrs := readScalarValues_zero componentType hvalid
    simp at hdata
    simp [getFeatureTablePropertyValues, hmode, hprop, hvals, hclass, hcp, htype,
      hct, hbv, hbuf, harr, hcount, hdata, hrs, require_some, exc_bind_ok,
      exc_pure]
  · intro propRef classDef classProp bvIdx bv buffer o hmodeNe hprop hbvkey
      hclass hcp htype harrNew hbv hbuf hoff
    rw [List.get?_eq_getElem?] at hbv hbuf
    rcases hm : doc.mode with _ | _ | _
    · exact absurd hm hmodeNe
    · rw [hm] at hbvkey harrNew
      simp at hbvkey
      simp [getFeatureTablePropertyValues, hm, hprop, hbvkey, hclass, hcp, htype,
        hbv, hbuf, hoff, hcount, pySlice_same, require_some, exc_bind_ok, exc_pure]
    · rw [hm] at hbvkey harrNew
      simp at hbvkey
      have harr2 : ¬(classProp.array = some true) := fun hc => harrNew ⟨rfl, hc⟩
      simp [getFeatureTablePropertyValues, hm, hprop, hbvkey, hclass, hcp, htype,
        hbv, hbuf, hoff, hcount, harr2, pySlice_same, require_some, exc_bind_ok,
        exc_pure]

/-- Witness for C7: a BOOLEAN property of an empty table with a non-empty
values buffer view still decodes to the empty sequence. -/
theorem c7_element_count_zero_witness :
    (0 : Nat) = 0 ∧
      getFeatureTablePropertyValues
        { mode := Mode.EXT_STRUCTURAL_METADATA,
          bufferViews := [{ buffer := 0, byteOffset := some 0, byteLength := 7 }],
          buffers := [[1, 2, 3]],
          classes := [("c", { properties := [("b",
            { type := some "BOOLEAN", componentType := none, array := none,
              count := none, componentCount := none, enumType := none,
              normalized := none, offset := none, scale := none })] })],
          enums := [] }
        { className := "c", count := 0,
          properties := [("b",
            { bufferView := none, values := some 0,
              stringOffsetBufferView := none, stringOffsets := none,
              arrayOffsets := none, arrayOffsetType := none,
              stringOffsetType := none, offsetType := none })] }
        "b" = .ok (some []) :=
  ⟨rfl, by
    have h := (c7_element_count_zero
      { mode := Mode.EXT_STRUCTURAL_METADATA,
        bufferViews := [{ buffer := 0, byteOffset := some 0, byteLength := 7 }],
        buffers := [[1, 2, 3]],
        classes := [("c", { properties := [("b",
          { type := some "BOOLEAN", componentType := none, array := none,
            count := none, componentCount := none, enumType := none,
            normalized := none, offset := none, scale := none })] })],
        enums := [] }
      { className := "c", count := 0,
        properties := [("b",
          { bufferView := none, values := some 0,
            stringOffsetBufferView := none, stringOffsets := none,
            arrayOffsets := none, arrayOffsetType := none,
            stringOffsetType := none, offsetType := none })] }
      "b" rfl).2 _ _ _ 0 _ _ 0 (by decide) rfl (by rfl) rfl rfl rfl (by decide)
      rfl rfl rfl
    exact h⟩

end WffTools
